import Mathlib

/-!
# render_device: resource registry, factories and shader helpers

A shallow embedding of `scm/gl_core/render_device/device.cpp`.

* C++ `std::string` is a list of characters, ordered lexicographically.
* `std::set` and `std::map` are the in-order sequence of their nodes; the
  well-formedness predicate `wf` says that the sequence is strictly ascending.
* A pointer is the address it holds (a natural number); an empty smart pointer
  is `none`.
* Objects built by constructors that live outside `device.cpp` (`new buffer(...)`,
  `new shader(...)`, ...) enter the embedding as inputs: the device only looks at
  their address, `fail()`, `bad()`, `state().state_string()` and `info_log()`.
* Log output and driver calls are returned as explicit lists.
-/

namespace scm_gl

/-! ## Strings -/

/-- A `std::string`. -/
abbrev std_string := List Char

/-- The expression `s[i]` on a `const std::string&`: the character at `i`, and
the null character at `i == s.size()`. -/
def std_string.at (s : std_string) (i : Nat) : Char :=
  s.getD i (Char.ofNat 0)

/-- The call `s.find_last_of(c)`: the greatest index holding `c`; `none`
stands for `npos`. -/
def std_string.find_last_of : std_string → Char → Option Nat
  | [], _ => none
  | x :: xs, c =>
    match std_string.find_last_of xs c with
    | some r => some (r + 1)
    | none => if x = c then some 0 else none

/-- The call `s.substr(0, n)`: the first `n` characters, all of them when `n`
exceeds the length; `none` stands for `npos` and gives the whole string. -/
def std_string.substr0 (s : std_string) : Option Nat → std_string
  | some n => s.take n
  | none => s

/-- The conversion `static_cast<int>(n)` of a `size_t` to a 32 bit `int`. -/
def static_cast_int (n : Nat) : Int :=
  (((n : Int) + 2 ^ 31) % 2 ^ 32) - 2 ^ 31

/-! ## Ordered containers -/

/-- A `std::set<α>`: the elements in iteration order. -/
structure std_set (α : Type) where
  elems : List α
deriving DecidableEq, Repr

/-- A `std::map<κ, β>`: the key/value nodes in iteration order. -/
structure std_map (κ : Type) (β : Type) where
  entries : List (κ × β)
deriving DecidableEq, Repr

namespace std_set

variable {α : Type} [LinearOrder α]

/-- The representation invariant of a `std::set`: strictly ascending. -/
def wf (s : std_set α) : Prop :=
  s.elems.Pairwise (fun a b => a < b)

instance (s : std_set α) : Decidable s.wf := by
  unfold wf; infer_instance

/-- The default constructed set. -/
def empty : std_set α := ⟨[]⟩

/-- The member function `size()`. -/
def size (s : std_set α) : Nat := s.elems.length

/-- Insertion into the node sequence: `x` goes before the first greater
element and is dropped when an equivalent element is met. -/
def insert_list (x : α) : List α → List α
  | [] => [x]
  | y :: ys =>
    if x < y then x :: y :: ys
    else if y < x then y :: insert_list x ys
    else y :: ys

/-- The member function `insert(x)`. -/
def insert (s : std_set α) (x : α) : std_set α :=
  ⟨insert_list x s.elems⟩

/-- Search in the node sequence: the position of the element equivalent to
`x` under the comparator, if there is one. -/
def find_list (x : α) : List α → Option Nat
  | [] => none
  | y :: ys =>
    if y < x then (find_list x ys).map (fun i => i + 1)
    else if x < y then none
    else some 0

/-- The member function `find(x)`: `none` stands for `end()`, `some i` for the
iterator to the `i`-th node. -/
def find (s : std_set α) (x : α) : Option Nat :=
  find_list x s.elems

/-- The member function `erase(it)` for the iterator to the `i`-th node. -/
def erase (s : std_set α) (i : Nat) : std_set α :=
  ⟨s.elems.eraseIdx i⟩

end std_set

namespace std_map

variable {κ β : Type} [LinearOrder κ]

/-- The representation invariant of a `std::map`: keys strictly ascending. -/
def wf (m : std_map κ β) : Prop :=
  (m.entries.map Prod.fst).Pairwise (fun a b => a < b)

instance (m : std_map κ β) : Decidable m.wf := by
  unfold wf; infer_instance

/-- The default constructed map. -/
def empty : std_map κ β := ⟨[]⟩

/-- Assignment through `operator[]` on the node sequence: the value of an
equivalent key is overwritten, otherwise a node is inserted in key order. -/
def assign_list (k : κ) (v : β) : List (κ × β) → List (κ × β)
  | [] => [(k, v)]
  | (k0, v0) :: rest =>
    if k < k0 then (k, v) :: (k0, v0) :: rest
    else if k0 < k then (k0, v0) :: assign_list k v rest
    else (k0, v) :: rest

/-- The statement `m[k] = v`. -/
def assign (m : std_map κ β) (k : κ) (v : β) : std_map κ β :=
  ⟨assign_list k v m.entries⟩

end std_map

/-! ## Logging -/

/-- The two log streams used by the device, `glerr()` and `glout()`. -/
inductive log_stream where
  | glerr
  | glout
deriving DecidableEq, Repr

/-- The level manipulators `log::fatal`, `log::error`, `log::warning`, `log::info`. -/
inductive log_level where
  | fatal
  | error
  | warning
  | info
deriving DecidableEq, Repr

/-- One message written to a log stream and closed with `log::end`; `level` is
`none` when no level manipulator was streamed. -/
structure log_entry where
  stream : log_stream
  level : Option log_level
  text : std_string
deriving DecidableEq, Repr

/-- The manipulator `log::nline`. -/
def nline : std_string := ['\n']

/-! ## Resources -/

/-- What the device observes of an object derived from `render_device_resource`:
its address, the answers of `fail()` and `bad()`, and `state().state_string()`. -/
structure render_device_resource where
  address : Nat
  fail : Bool
  bad : Bool
  state_string : std_string
deriving DecidableEq, Repr

/-- The descriptor `buffer_desc(in_binding, in_usage, in_size)`. -/
structure buffer_desc where
  _bindings : Nat
  _usage : Nat
  _size : Nat
deriving DecidableEq, Repr

/-- A `buffer` object. -/
structure buffer extends render_device_resource where
  descriptor : buffer_desc
deriving DecidableEq, Repr

/-- A `shader` object; `info_log` is the compiler output. -/
structure shader extends render_device_resource where
  info_log : std_string
deriving DecidableEq, Repr

/-- A `program` object; `info_log` is the linker output. -/
structure program extends render_device_resource where
  info_log : std_string
deriving DecidableEq, Repr

abbrev vertex_array := render_device_resource
abbrev texture_1d := render_device_resource
abbrev texture_2d := render_device_resource
abbrev texture_3d := render_device_resource
abbrev texture_buffer := render_device_resource
abbrev sampler_state := render_device_resource
abbrev render_buffer := render_device_resource
abbrev frame_buffer := render_device_resource
abbrev depth_stencil_state := render_device_resource
abbrev rasterizer_state := render_device_resource
abbrev blend_state := render_device_resource
abbrev timer_query := render_device_resource

/-! ## Shader macros and include paths -/

/-- A `shader_macro(name, value)`. -/
structure shader_macro where
  _name : std_string
  _value : std_string
deriving DecidableEq, Repr

/-- A `shader_macro_array`: the macros in the order they were added. -/
structure shader_macro_array where
  macros : List shader_macro
deriving DecidableEq, Repr

/-- Modelled from the spec: `shader_macro_array::operator()(name, value)` is
declared outside `device.cpp`; the spec has the entry appended after the ones
already present. -/
def shader_macro_array.add (a : shader_macro_array) (n v : std_string) : shader_macro_array :=
  ⟨a.macros ++ [ shader_macro.mk n v]⟩

/-- A `shader_include_path_list`. -/
abbrev shader_include_path_list := List std_string

/-! ## The device -/

/-- The members of `render_device` that the operations below read or write. -/
structure render_device where
  _registered_resources : std_set Nat
  _default_macro_defines : std_map std_string shader_macro
  _default_include_paths : std_set std_string
deriving DecidableEq, Repr

/-- A device right after construction: nothing registered, no defaults. -/
def render_device.initial : render_device :=
  ⟨std_set.empty, std_map.empty, std_set.empty⟩

/-- The containers of the device satisfy their representation invariants. -/
def render_device.wf (dev : render_device) : Prop :=
  dev._registered_resources.wf ∧ dev._default_macro_defines.wf ∧ dev._default_include_paths.wf

instance (dev : render_device) : Decidable dev.wf := by
  unfold render_device.wf; infer_instance

/-- The outcome of a member function: the returned value, the device
afterwards and the log entries written, oldest first. -/
structure outcome (α : Type) where
  value : α
  device : render_device
  log : List log_entry

/-- The function `render_device::register_resource`. -/
def register_resource (dev : render_device) (res_ptr : Nat) : render_device :=
  { dev with _registered_resources := dev._registered_resources.insert res_ptr }

/-- The function `render_device::release_resource`: the registry part of it.
The closing `delete res_ptr` frees memory and touches no member of the device. -/
def release_resource (dev : render_device) (res_ptr : Nat) : render_device :=
  match dev._registered_resources.find res_ptr with
  | some res_iter =>
    { dev with _registered_resources := dev._registered_resources.erase res_iter }
  | none => dev

/-! ## Factories -/

/-- The function `render_device::create_buffer(const buffer_desc&, const void*)`;
`new_buffer` is the object built by `new buffer(*this, in_buffer_desc, in_initial_data)`.
The smart pointer carries `release_resource` as its deleter, so on the failure
path the discarded object is destroyed through `release_resource`. -/
def create_buffer (dev : render_device) (new_buffer : buffer) : outcome (Option buffer) :=
  if new_buffer.fail then
    if new_buffer.bad then
      ⟨none, release_resource dev new_buffer.address, [⟨.glerr, some .error,
        "render_device::create_buffer(): unable to create buffer object (".toList
          ++ new_buffer.state_string ++ ").".toList⟩]⟩
    else
      ⟨none, release_resource dev new_buffer.address, [⟨.glerr, some .error,
        "render_device::create_buffer(): unable to allocate buffer (".toList
          ++ new_buffer.state_string ++ ").".toList⟩]⟩
  else
    ⟨some new_buffer, register_resource dev new_buffer.address, []⟩

/-- The function `render_device::create_vertex_array`; `new_array` is the object
built by its `new` expression. -/
def create_vertex_array (dev : render_device) (new_array : vertex_array) : outcome (Option vertex_array) :=
  if new_array.fail then
    if new_array.bad then
      ⟨none, dev, [⟨.glerr, some .error,
        "render_device::create_vertex_array(): unable to create vertex array object (".toList
          ++ new_array.state_string ++ ").".toList⟩]⟩
    else
      ⟨none, dev, [⟨.glerr, some .error,
        "render_device::create_vertex_array(): unable to initialize vertex array object (".toList
          ++ new_array.state_string ++ ").".toList⟩]⟩
  else
    ⟨some new_array, dev, []⟩

/-- The function `render_device::create_texture_1d` (both descriptor overloads share this body); `new_tex` is the object
built by its `new` expression. -/
def create_texture_1d (dev : render_device) (new_tex : texture_1d) : outcome (Option texture_1d) :=
  if new_tex.fail then
    if new_tex.bad then
      ⟨none, dev, [⟨.glerr, some .error,
        "render_device::create_texture_1d(): unable to create texture object (".toList
          ++ new_tex.state_string ++ ").".toList⟩]⟩
    else
      ⟨none, dev, [⟨.glerr, some .error,
        "render_device::create_texture_1d(): unable to allocate texture image data (".toList
          ++ new_tex.state_string ++ ").".toList⟩]⟩
  else
    ⟨some new_tex, dev, []⟩

/-- The function `render_device::create_texture_2d` (both descriptor overloads share this body); `new_tex` is the object
built by its `new` expression. -/
def create_texture_2d (dev : render_device) (new_tex : texture_2d) : outcome (Option texture_2d) :=
  if new_tex.fail then
    if new_tex.bad then
      ⟨none, dev, [⟨.glerr, some .error,
        "render_device::create_texture_2d(): unable to create texture object (".toList
          ++ new_tex.state_string ++ ").".toList⟩]⟩
    else
      ⟨none, dev, [⟨.glerr, some .error,
        "render_device::create_texture_2d(): unable to allocate texture image data (".toList
          ++ new_tex.state_string ++ ").".toList⟩]⟩
  else
    ⟨some new_tex, dev, []⟩

/-- The function `render_device::create_texture_3d` (both descriptor overloads share this body); `new_tex` is the object
built by its `new` expression. -/
def create_texture_3d (dev : render_device) (new_tex : texture_3d) : outcome (Option texture_3d) :=
  if new_tex.fail then
    if new_tex.bad then
      ⟨none, dev, [⟨.glerr, some .error,
        "render_device::create_texture_3d(): unable to create texture object (".toList
          ++ new_tex.state_string ++ ").".toList⟩]⟩
    else
      ⟨none, dev, [⟨.glerr, some .error,
        "render_device::create_texture_3d(): unable to allocate texture image data (".toList
          ++ new_tex.state_string ++ ").".toList⟩]⟩
  else
    ⟨some new_tex, dev, []⟩

/-- The function `render_device::create_texture_buffer`(const texture_buffer_desc&); `new_tex` is the object
built by its `new` expression. -/
def create_texture_buffer (dev : render_device) (new_tex : texture_buffer) : outcome (Option texture_buffer) :=
  if new_tex.fail then
    if new_tex.bad then
      ⟨none, dev, [⟨.glerr, some .error,
        "render_device::create_texture_buffer(): unable to create texture buffer object (".toList
          ++ new_tex.state_string ++ ").".toList⟩]⟩
    else
      ⟨none, dev, [⟨.glerr, some .error,
        "render_device::create_texture_buffer(): unable to allocate or attach texture buffer data (".toList
          ++ new_tex.state_string ++ ").".toList⟩]⟩
  else
    ⟨some new_tex, dev, []⟩

/-- The function `render_device::create_sampler_state`; `new_sstate` is the object
built by its `new` expression. -/
def create_sampler_state (dev : render_device) (new_sstate : sampler_state) : outcome (Option sampler_state) :=
  if new_sstate.fail then
    if new_sstate.bad then
      ⟨none, dev, [⟨.glerr, some .error,
        "render_device::create_sampler_state(): unable to create sampler state object (".toList
          ++ new_sstate.state_string ++ ").".toList⟩]⟩
    else
      ⟨none, dev, []⟩
  else
    ⟨some new_sstate, dev, []⟩

/-- The function `render_device::create_render_buffer`; `new_rb` is the object
built by its `new` expression. -/
def create_render_buffer (dev : render_device) (new_rb : render_buffer) : outcome (Option render_buffer) :=
  if new_rb.fail then
    if new_rb.bad then
      ⟨none, dev, [⟨.glerr, some .error,
        "render_device::create_render_buffer(): unable to create render buffer object (".toList
          ++ new_rb.state_string ++ ").".toList⟩]⟩
    else
      ⟨none, dev, []⟩
  else
    ⟨some new_rb, dev, []⟩

/-- The function `render_device::create_frame_buffer`; `new_rb` is the object
built by its `new` expression. The message names `create_render_buffer`, as in
the source. -/
def create_frame_buffer (dev : render_device) (new_rb : frame_buffer) : outcome (Option frame_buffer) :=
  if new_rb.fail then
    if new_rb.bad then
      ⟨none, dev, [⟨.glerr, some .error,
        "render_device::create_render_buffer(): unable to create frame buffer object (".toList
          ++ new_rb.state_string ++ ").".toList⟩]⟩
    else
      ⟨none, dev, []⟩
  else
    ⟨some new_rb, dev, []⟩

/-- The function `render_device::create_timer_query`; `new_tq` is the object
built by its `new` expression. -/
def create_timer_query (dev : render_device) (new_tq : timer_query) : outcome (Option timer_query) :=
  if new_tq.fail then
    if new_tq.bad then
      ⟨none, dev, [⟨.glerr, some .error,
        "render_device::create_timer_query(): unable to create timer query object (".toList
          ++ new_tq.state_string ++ ").".toList⟩]⟩
    else
      ⟨none, dev, []⟩
  else
    ⟨some new_tq, dev, []⟩

/-- The function `render_device::create_depth_stencil_state(const depth_stencil_state_desc&)`:
the new object is returned without a look at its state. -/
def create_depth_stencil_state (dev : render_device) (new_ds_state : depth_stencil_state) :
    outcome (Option depth_stencil_state) :=
  ⟨some new_ds_state, dev, []⟩

/-- The function `render_device::create_rasterizer_state(const rasterizer_state_desc&)`:
the new object is returned without a look at its state. -/
def create_rasterizer_state (dev : render_device) (new_r_state : rasterizer_state) :
    outcome (Option rasterizer_state) :=
  ⟨some new_r_state, dev, []⟩

/-- The function `render_device::create_blend_state(const blend_state_desc&)`:
the new object is returned without a look at its state. -/
def create_blend_state (dev : render_device) (new_bl_state : blend_state) :
    outcome (Option blend_state) :=
  ⟨some new_bl_state, dev, []⟩

/-- The function `render_device::create_texture_buffer(data_format, buffer_usage,
scm::size_t, const void*)`: a buffer is created first, then the texture on top
of it. `new_buffer` and `new_tex` are the objects the two `new` expressions
build. A texture that is returned keeps the buffer referenced through its
descriptor; when the texture is discarded the last reference to the buffer
goes with it and the buffer is destroyed through `release_resource`. -/
def create_texture_buffer_sized (dev : render_device) (new_buffer : buffer)
    (new_tex : texture_buffer) : outcome (Option texture_buffer) :=
  let b := create_buffer dev new_buffer
  match b.value with
  | none =>
    ⟨none, b.device, b.log ++ [⟨.glerr, some .error,
      "render_device::create_texture_buffer(): unable to create texture buffer data buffer.".toList⟩]⟩
  | some tex_buffer =>
    let t := create_texture_buffer b.device new_tex
    match t.value with
    | none => ⟨none, release_resource t.device tex_buffer.address, b.log ++ t.log⟩
    | some tex => ⟨some tex, t.device, b.log ++ t.log⟩

/-! ## Shader creation -/

/-- A `shader_stage` enumerator. -/
abbrev shader_stage := Nat

/-- The loop of `create_shader` that combines the macro definitions: a copy of
the macros of the call, to which every default define of the device is added
in the iteration order of the map. -/
def create_shader_macro_array (dev : render_device) (in_macros : shader_macro_array) :
    shader_macro_array :=
  dev._default_macro_defines.entries.foldl
    (fun arr mb => arr.add mb.2._name mb.2._value) in_macros

/-- The loop of `create_shader` that combines the include paths: a copy of the
list of the call, to which every default include path of the device is pushed
back in the iteration order of the set. -/
def create_shader_include_paths (dev : render_device) (in_inc_paths : shader_include_path_list) :
    shader_include_path_list :=
  dev._default_include_paths.elems.foldl (fun paths ip => paths ++ [ip]) in_inc_paths

/-- The function `render_device::create_shader` taking macros and include
paths. The constructor of `shader` and `shader_stage_string` are declared
outside `device.cpp` and are arguments here. -/
def create_shader (shader_stage_string : shader_stage → std_string)
    (shader_ctor : shader_stage → std_string → std_string → shader_macro_array →
      shader_include_path_list → shader)
    (dev : render_device) (in_stage : shader_stage) (in_source : std_string)
    (in_macros : shader_macro_array) (in_inc_paths : shader_include_path_list)
    (in_source_name : std_string) : outcome (Option shader) :=
  let macro_array := create_shader_macro_array dev in_macros
  let include_paths := create_shader_include_paths dev in_inc_paths
  let new_shader := shader_ctor in_stage in_source in_source_name macro_array include_paths
  if new_shader.fail then
    if new_shader.bad then
      ⟨none, dev, [⟨.glerr, none,
        "render_device::create_shader(): unable to create shader object (".toList
          ++ "name: ".toList ++ in_source_name ++ ", ".toList
          ++ "stage: ".toList ++ shader_stage_string in_stage ++ ", ".toList
          ++ new_shader.state_string ++ ").".toList⟩]⟩
    else
      ⟨none, dev, [⟨.glerr, none,
        "render_device::create_shader(): unable to compile shader (".toList
          ++ "name: ".toList ++ in_source_name ++ ", ".toList
          ++ "stage: ".toList ++ shader_stage_string in_stage ++ ", ".toList
          ++ new_shader.state_string ++ "):".toList ++ nline
          ++ new_shader.info_log⟩]⟩
  else
    if !new_shader.info_log.isEmpty then
      ⟨some new_shader, dev, [⟨.glout, some .info,
        "render_device::create_shader(): compiler info (".toList
          ++ "name: ".toList ++ in_source_name ++ ", ".toList
          ++ "stage: ".toList ++ shader_stage_string in_stage
          ++ ")".toList ++ nline
          ++ new_shader.info_log⟩]⟩
    else
      ⟨some new_shader, dev, []⟩

/-- The function `render_device::create_program`; `new_program` is the object
built by `new program(*this, in_shaders)`. -/
def create_program (dev : render_device) (new_program : program) : outcome (Option program) :=
  if new_program.fail then
    if new_program.bad then
      ⟨none, dev, [⟨.glerr, none,
        "render_device::create_program(): unable to create shader object (".toList
          ++ new_program.state_string ++ ").".toList⟩]⟩
    else
      ⟨none, dev, [⟨.glerr, none,
        "render_device::create_program(): error during link operation (".toList
          ++ new_program.state_string ++ "):".toList ++ nline
          ++ new_program.info_log⟩]⟩
  else
    if !new_program.info_log.isEmpty then
      ⟨some new_program, dev, [⟨.glout, some .info,
        "render_device::create_program(): linker info".toList ++ nline
          ++ new_program.info_log⟩]⟩
    else
      ⟨some new_program, dev, []⟩

/-! ## Default macro defines -/

/-- The function `render_device::add_macro_define(const std::string&, const std::string&)`. -/
def add_macro_define (dev : render_device) (in_name in_value : std_string) : render_device :=
  { dev with _default_macro_defines :=
      dev._default_macro_defines.assign in_name ( shader_macro.mk in_name in_value) }

/-- The function `render_device::add_macro_define(const shader_macro&)`. -/
def add_macro_define_m (dev : render_device) ( in_macro : shader_macro) : render_device :=
  { dev with _default_macro_defines :=
      dev._default_macro_defines.assign in_macro._name in_macro }

/-- The function `render_device::add_macro_defines`. -/
def add_macro_defines (dev : render_device) (in_macros : shader_macro_array) : render_device :=
  in_macros.macros.foldl (fun d m => add_macro_define_m d m) dev

/-! ## Named include strings -/

/-- The states of `object_state` that `add_include_string` can meet. -/
inductive object_state where
  | OS_ERROR_INVALID_ENUM
  | OS_ERROR_INVALID_VALUE
  | OS_ERROR_INVALID_OPERATION
  | OS_ERROR_OUT_OF_MEMORY
  | OS_ERROR_UNKNOWN
deriving DecidableEq, Repr

/-- The enumerator `GL_SHADER_INCLUDE_ARB`. -/
def GL_SHADER_INCLUDE_ARB : Nat := 0x8DAE

/-- A call made to the driver. -/
inductive gl_call where
  | glNamedStringARB (type : Nat) (namelen : Int) (name : std_string)
      (stringlen : Int) (string : std_string)
deriving DecidableEq, Repr

/-- Modelled from the spec: the driver interface `opengl::gl3_core` together
with the error check `util::gl_error`, both declared outside `device.cpp`.
`extension_ARB_shading_language_include` is the capability flag of the driver.
`error_after c` is what the error check made right after the driver call `c`
reports: `none` when no error occurred, otherwise the classification that
`to_object_state()` gives. -/
structure gl3_core where
  extension_ARB_shading_language_include : Bool
  error_after : gl_call → Option object_state

/-- The call `glcore.glNamedStringARB(GL_SHADER_INCLUDE_ARB, ...)` that
`add_include_string` issues for a path and a source string. -/
def named_string_call (in_path in_source_string : std_string) : gl_call :=
  gl_call.glNamedStringARB GL_SHADER_INCLUDE_ARB
    (static_cast_int in_path.length) in_path
    (static_cast_int in_source_string.length) in_source_string

/-- The outcome of a member function that talks to the driver. -/
structure driver_outcome (α : Type) extends outcome α where
  driver_calls : List gl_call

/-- The function `render_device::add_include_string`. The closing `gl_assert`
is a debug check and changes nothing. -/
def add_include_string (glcore : gl3_core) (dev : render_device)
    (in_path in_source_string : std_string) : driver_outcome Bool :=
  if !glcore.extension_ARB_shading_language_include then
    ⟨⟨false, dev, [⟨.glout, some .warning,
      "render_device::add_include_string(): ".toList
        ++ "shader includes not supported (GL_ARB_shading_language_include unsupported), ignoring include string.".toList⟩]⟩,
      []⟩
  else if in_path.at 0 ≠ '/' then
    ⟨⟨false, dev, [⟨.glerr, some .error,
      "render_device::add_include_string(): ".toList
        ++ "<error> path not starting with '/'.".toList⟩]⟩,
      []⟩
  else
    let call := named_string_call in_path in_source_string
    match glcore.error_after call with
    | some .OS_ERROR_INVALID_VALUE =>
      ⟨⟨false, dev, [⟨.glerr, some .error,
        "render_device::add_include_string(): ".toList
          ++ "error creating named include string (path or source string empty or path not starting with '/'.".toList⟩]⟩,
        [call]⟩
    | some _ =>
      ⟨⟨false, dev, [⟨.glerr, some .error,
        "render_device::add_include_string(): ".toList
          ++ "error creating named include string (an unknown error occured)".toList⟩]⟩,
        [call]⟩
    | none =>
      let parent_path_end := in_path.find_last_of '/'
      let parent_path := in_path.substr0 parent_path_end
      if !parent_path.isEmpty then
        ⟨⟨true, { dev with _default_include_paths := dev._default_include_paths.insert parent_path },
          []⟩, [call]⟩
      else
        ⟨⟨true, dev, []⟩, [call]⟩

/-! ## Sequences of calls -/

/-- A call that touches the registry: a buffer creation, with the object its
`new` expression builds, or the release of a resource pointer. -/
inductive device_call where
  | create_buffer (new_buffer : buffer)
  | release_resource (res_ptr : Nat)
deriving DecidableEq, Repr

/-- The device after one call. -/
def device_call.run (dev : render_device) : device_call → render_device
  | .create_buffer new_buffer => (scm_gl.create_buffer dev new_buffer).device
  | .release_resource res_ptr => scm_gl.release_resource dev res_ptr

/-- The device after a sequence of calls, first call first. -/
def run_calls (dev : render_device) (calls : List device_call) : render_device :=
  calls.foldl device_call.run dev

/-- The call hands a resource at address `p` to the caller (a creation that
did not fail) or takes the one at `p` back (a release). -/
def device_call.concerns (p : Nat) : device_call → Bool
  | .create_buffer new_buffer => !new_buffer.fail && new_buffer.address == p
  | .release_resource res_ptr => res_ptr == p

/-- The resource at address `p` has been created and not yet released: the
last call of the sequence that concerns `p` is a creation. -/
def live_after (calls : List device_call) (p : Nat) : Bool :=
  match (calls.filter (device_call.concerns p)).getLast? with
  | some (.create_buffer _) => true
  | _ => false

/-- The `k`-th call, when it is a creation, builds its object at an address
that holds no live resource at that moment. -/
def fresh_at (calls : List device_call) (k : Nat) : Bool :=
  match calls[k]? with
  | some (.create_buffer new_buffer) => !live_after (calls.take k) new_buffer.address
  | _ => true

/-- The guarantee of `new`: no object is built at the address of a live one. -/
def allocator_fresh (calls : List device_call) : Prop :=
  ∀ k, k < calls.length → fresh_at calls k = true

instance (calls : List device_call) : Decidable (allocator_fresh calls) := by
  unfold allocator_fresh; infer_instance

/-- The `i`-th call, when it is a creation that did not fail, is followed by a
release of the created resource. -/
def released_later (calls : List device_call) (i : Nat) : Bool :=
  match calls[i]? with
  | some (.create_buffer new_buffer) =>
    new_buffer.fail || (calls.drop (i + 1)).contains (.release_resource new_buffer.address)
  | _ => true

/-- Every successfully created resource is released afterwards. -/
def all_released (calls : List device_call) : Prop :=
  ∀ i, i < calls.length → released_later calls i = true

instance (calls : List device_call) : Decidable (all_released calls) := by
  unfold all_released; infer_instance

/-! ## The factories as one family -/

/-- A call to one of the `create_*` factories, with the objects its `new`
expressions build (for `create_shader`: with the constructor and the arguments
handed to it). -/
inductive factory_call where
  | create_buffer (new_buffer : buffer)
  | create_vertex_array (new_array : vertex_array)
  | create_shader (shader_stage_string : shader_stage → std_string)
      (shader_ctor : shader_stage → std_string → std_string → shader_macro_array →
        shader_include_path_list → shader)
      (in_stage : shader_stage) (in_source : std_string) (in_macros : shader_macro_array)
      (in_inc_paths : shader_include_path_list) (in_source_name : std_string)
  | create_program (new_program : program)
  | create_texture_1d (new_tex : texture_1d)
  | create_texture_2d (new_tex : texture_2d)
  | create_texture_3d (new_tex : texture_3d)
  | create_texture_buffer (new_tex : texture_buffer)
  | create_texture_buffer_sized (new_buffer : buffer) (new_tex : texture_buffer)
  | create_sampler_state (new_sstate : sampler_state)
  | create_render_buffer (new_rb : render_buffer)
  | create_frame_buffer (new_rb : frame_buffer)
  | create_depth_stencil_state (new_ds_state : depth_stencil_state)
  | create_rasterizer_state (new_r_state : rasterizer_state)
  | create_blend_state (new_bl_state : blend_state)
  | create_timer_query (new_tq : timer_query)

/-- The outcome of a factory call, the returned pointer seen as a pointer to
the base class. -/
def factory_call.run (dev : render_device) :
    factory_call → outcome (Option render_device_resource)
  | .create_buffer new_buffer =>
    let o := scm_gl.create_buffer dev new_buffer
    ⟨o.value.map buffer.torender_device_resource, o.device, o.log⟩
  | .create_vertex_array new_array => scm_gl.create_vertex_array dev new_array
  | .create_shader stage_string ctor in_stage in_source in_macros in_inc_paths in_source_name =>
    let o := scm_gl.create_shader stage_string ctor dev in_stage in_source in_macros
      in_inc_paths in_source_name
    ⟨o.value.map shader.torender_device_resource, o.device, o.log⟩
  | .create_program new_program =>
    let o := scm_gl.create_program dev new_program
    ⟨o.value.map program.torender_device_resource, o.device, o.log⟩
  | .create_texture_1d new_tex => scm_gl.create_texture_1d dev new_tex
  | .create_texture_2d new_tex => scm_gl.create_texture_2d dev new_tex
  | .create_texture_3d new_tex => scm_gl.create_texture_3d dev new_tex
  | .create_texture_buffer new_tex => scm_gl.create_texture_buffer dev new_tex
  | .create_texture_buffer_sized new_buffer new_tex =>
    scm_gl.create_texture_buffer_sized dev new_buffer new_tex
  | .create_sampler_state new_sstate => scm_gl.create_sampler_state dev new_sstate
  | .create_render_buffer new_rb => scm_gl.create_render_buffer dev new_rb
  | .create_frame_buffer new_rb => scm_gl.create_frame_buffer dev new_rb
  | .create_depth_stencil_state new_ds_state =>
    scm_gl.create_depth_stencil_state dev new_ds_state
  | .create_rasterizer_state new_r_state => scm_gl.create_rasterizer_state dev new_r_state
  | .create_blend_state new_bl_state => scm_gl.create_blend_state dev new_bl_state
  | .create_timer_query new_tq => scm_gl.create_timer_query dev new_tq

/-- The factory is one of the three for state objects that hold a descriptor
only: depth-stencil, rasterizer and blend state. -/
def factory_call.is_descriptor_state : factory_call → Bool
  | .create_depth_stencil_state _ => true
  | .create_rasterizer_state _ => true
  | .create_blend_state _ => true
  | _ => false

/-! ## Lookup in a macro list -/

/-- First-match lookup by name, the resolution rule the spec names for the
combined macro list: the value of the first entry with that name. -/
def first_match (name : std_string) (l : List shader_macro) : Option std_string :=
  (l.find? (fun m => m._name == name)).map (fun m => m._value)

/-! ## Shaders from files -/

/-- The arguments of one call to the string based `create_shader`. -/
structure create_shader_call where
  in_stage : shader_stage
  in_source : std_string
  in_macros : shader_macro_array
  in_inc_paths : shader_include_path_list
  in_source_name : std_string
deriving DecidableEq, Repr

/-- The outcome of `create_shader_from_file`, with the calls it made to the
string based `create_shader`, the only place where a `shader` is constructed. -/
structure file_outcome extends outcome (Option shader) where
  create_shader_calls : List create_shader_call

/-- The function `render_device::create_shader_from_file` taking macros and
include paths. `io::read_text_file` and `boost::filesystem::path::filename`
are declared outside `device.cpp` and are arguments here: `read_text_file`
gives the text of the file, or `none` when the call returns false. -/
def create_shader_from_file (read_text_file : std_string → Option std_string)
    (filename : std_string → std_string)
    (shader_stage_string : shader_stage → std_string)
    (shader_ctor : shader_stage → std_string → std_string → shader_macro_array →
      shader_include_path_list → shader)
    (dev : render_device) (in_stage : shader_stage) (in_file_name : std_string)
    (in_macros : shader_macro_array) (in_inc_paths : shader_include_path_list) :
    file_outcome :=
  match read_text_file in_file_name with
  | none =>
    ⟨⟨none, dev, [⟨.glerr, none,
      "render_device::create_shader_from_file(): error reading shader file ".toList
        ++ in_file_name⟩]⟩, []⟩
  | some source_string =>
    ⟨create_shader shader_stage_string shader_ctor dev in_stage source_string in_macros
        in_inc_paths (filename in_file_name),
      [⟨in_stage, source_string, in_macros, in_inc_paths, filename in_file_name⟩]⟩

/-! ## Resizing a buffer -/

/-- One call `buffer_data(*this, desc, data)` on a buffer object: the address
of the object, the descriptor and the initial data pointer (`none` for the
null pointer). -/
structure buffer_data_call where
  target : Nat
  desc : buffer_desc
  initial_data : Option Nat
deriving DecidableEq, Repr

/-- The outcome of `resize_buffer`: the returned flag, the buffer object as
the call leaves it and the `buffer_data` calls made. -/
structure resize_outcome extends outcome Bool where
  buffer : buffer
  buffer_data_calls : List buffer_data_call

/-- The function `render_device::resize_buffer`. The member function
`buffer::buffer_data` is declared outside `device.cpp` and is an argument
here: for the object, a descriptor and an initial data pointer it gives the
returned flag and the object afterwards. -/
def resize_buffer (buffer_data : buffer → buffer_desc → Option Nat → Bool × buffer)
    (dev : render_device) (in_buffer : buffer) (in_size : Nat) : resize_outcome :=
  let desc : buffer_desc := { in_buffer.descriptor with _size := in_size }
  let r := buffer_data in_buffer desc none
  if !r.1 then
    ⟨⟨false, dev, [⟨.glerr, some .error,
      "render_device::resize_buffer(): unable to reallocate buffer (".toList
        ++ r.2.state_string ++ ").".toList⟩]⟩, r.2, [⟨in_buffer.address, desc, none⟩]⟩
  else
    ⟨⟨true, dev, []⟩, r.2, [⟨in_buffer.address, desc, none⟩]⟩

/-! ## Construction of the device -/

/-- The compile time configuration read from `scm/gl_core/config.h`, which is
not among the sources: the two version macros and whether
`SCM_GL_CORE_USE_DIRECT_STATE_ACCESS` is defined. -/
structure build_config where
  SCM_GL_CORE_BASE_OPENGL_VERSION : Nat
  SCM_GL_CORE_OPENGL_VERSION_410 : Nat
  SCM_GL_CORE_USE_DIRECT_STATE_ACCESS : Bool
deriving DecidableEq, Repr

/-- The parameter names that `init_capabilities` passes to `glGetIntegerv`. -/
inductive gl_pname where
  | GL_MAX_VERTEX_ATTRIBS
  | GL_MAX_DRAW_BUFFERS
  | GL_MAX_DUAL_SOURCE_DRAW_BUFFERS
  | GL_MAX_TEXTURE_SIZE
  | GL_MAX_3D_TEXTURE_SIZE
  | GL_MAX_ARRAY_TEXTURE_LAYERS
  | GL_MAX_SAMPLES
  | GL_MAX_DEPTH_TEXTURE_SAMPLES
  | GL_MAX_COLOR_TEXTURE_SAMPLES
  | GL_MAX_INTEGER_SAMPLES
  | GL_MAX_TEXTURE_IMAGE_UNITS
  | GL_MAX_TEXTURE_BUFFER_SIZE
  | GL_MAX_COLOR_ATTACHMENTS
  | GL_MAX_VERTEX_UNIFORM_BLOCKS
  | GL_MAX_GEOMETRY_UNIFORM_BLOCKS
  | GL_MAX_FRAGMENT_UNIFORM_BLOCKS
  | GL_MAX_COMBINED_UNIFORM_BLOCKS
  | GL_MAX_UNIFORM_BUFFER_BINDINGS
  | GL_UNIFORM_BUFFER_OFFSET_ALIGNMENT
  | GL_MAX_VIEWPORTS
deriving DecidableEq, Repr

/-- The part of `context_information()` that the constructor prints. -/
structure context_info where
  _version_major : Nat
  _version_minor : Nat
deriving DecidableEq, Repr

/-- Modelled from the spec: the members of the driver binding
`opengl::gl3_core`, declared outside `device.cpp`, that the constructor and
`init_capabilities` use. `initialize_result` is the flag that
`initialize()` returns, `version_supported` the flag for a version, `is_supported` the answer for an extension name,
`glGetIntegerv` the integer the driver writes for a parameter name. -/
structure gl3_core_binding extends gl3_core where
  initialize_result : Bool
  version_supported : Nat → Nat → Bool
  is_supported : std_string → Bool
  context_information : context_info
  glGetIntegerv : gl_pname → Int

/-- The member `_capabilities` of the device. -/
structure device_capabilities where
  _max_vertex_attributes : Int
  _max_draw_buffers : Int
  _max_dual_source_draw_buffers : Int
  _max_texture_size : Int
  _max_texture_3d_size : Int
  _max_array_texture_layers : Int
  _max_samples : Int
  _max_depth_texture_samples : Int
  _max_color_texture_samples : Int
  _max_integer_samples : Int
  _max_texture_image_units : Int
  _max_texture_buffer_size : Int
  _max_frame_buffer_color_attachments : Int
  _max_vertex_uniform_blocks : Int
  _max_geometry_uniform_blocks : Int
  _max_fragment_uniform_blocks : Int
  _max_combined_uniform_blocks : Int
  _max_uniform_buffer_bindings : Int
  _uniform_buffer_offset_alignment : Int
  _max_viewports : Int
deriving DecidableEq, Repr

/-- The outcome of `init_capabilities`: the capability table, or `none` when
an `assert` failed and ended the process, and the parameter names passed to
`glGetIntegerv`, in call order. -/
structure capability_probe where
  capabilities : Option device_capabilities
  queries : List gl_pname
deriving DecidableEq, Repr

/-- The function `render_device::init_capabilities`, with `assert` taken as
checked. Each block of queries is followed by its block of assertions; the
first block that has a value that is not positive ends the run. -/
def init_capabilities (cfg : build_config) (glcore : gl3_core_binding) : capability_probe :=
  let q1 : List gl_pname :=
    [.GL_MAX_VERTEX_ATTRIBS, .GL_MAX_DRAW_BUFFERS, .GL_MAX_DUAL_SOURCE_DRAW_BUFFERS]
  let _max_vertex_attributes := glcore.glGetIntegerv .GL_MAX_VERTEX_ATTRIBS
  let _max_draw_buffers := glcore.glGetIntegerv .GL_MAX_DRAW_BUFFERS
  let _max_dual_source_draw_buffers := glcore.glGetIntegerv .GL_MAX_DUAL_SOURCE_DRAW_BUFFERS
  if ¬ (_max_vertex_attributes > 0 ∧ _max_draw_buffers > 0
      ∧ _max_dual_source_draw_buffers > 0) then ⟨none, q1⟩ else
  let q2 : List gl_pname := q1 ++
    [.GL_MAX_TEXTURE_SIZE, .GL_MAX_3D_TEXTURE_SIZE, .GL_MAX_ARRAY_TEXTURE_LAYERS,
     .GL_MAX_SAMPLES, .GL_MAX_DEPTH_TEXTURE_SAMPLES, .GL_MAX_COLOR_TEXTURE_SAMPLES,
     .GL_MAX_INTEGER_SAMPLES, .GL_MAX_TEXTURE_IMAGE_UNITS, .GL_MAX_TEXTURE_BUFFER_SIZE,
     .GL_MAX_COLOR_ATTACHMENTS]
  let _max_texture_size := glcore.glGetIntegerv .GL_MAX_TEXTURE_SIZE
  let _max_texture_3d_size := glcore.glGetIntegerv .GL_MAX_3D_TEXTURE_SIZE
  let _max_array_texture_layers := glcore.glGetIntegerv .GL_MAX_ARRAY_TEXTURE_LAYERS
  let _max_samples := glcore.glGetIntegerv .GL_MAX_SAMPLES
  let _max_depth_texture_samples := glcore.glGetIntegerv .GL_MAX_DEPTH_TEXTURE_SAMPLES
  let _max_color_texture_samples := glcore.glGetIntegerv .GL_MAX_COLOR_TEXTURE_SAMPLES
  let _max_integer_samples := glcore.glGetIntegerv .GL_MAX_INTEGER_SAMPLES
  let _max_texture_image_units := glcore.glGetIntegerv .GL_MAX_TEXTURE_IMAGE_UNITS
  let _max_texture_buffer_size := glcore.glGetIntegerv .GL_MAX_TEXTURE_BUFFER_SIZE
  let _max_frame_buffer_color_attachments := glcore.glGetIntegerv .GL_MAX_COLOR_ATTACHMENTS
  if ¬ (_max_texture_size > 0 ∧ _max_texture_3d_size > 0 ∧ _max_array_texture_layers > 0
      ∧ _max_samples > 0 ∧ _max_depth_texture_samples > 0 ∧ _max_color_texture_samples > 0
      ∧ _max_integer_samples > 0 ∧ _max_texture_image_units > 0
      ∧ _max_texture_buffer_size > 0 ∧ _max_frame_buffer_color_attachments > 0)
    then ⟨none, q2⟩ else
  let q3 : List gl_pname := q2 ++
    [.GL_MAX_VERTEX_UNIFORM_BLOCKS, .GL_MAX_GEOMETRY_UNIFORM_BLOCKS,
     .GL_MAX_FRAGMENT_UNIFORM_BLOCKS, .GL_MAX_COMBINED_UNIFORM_BLOCKS,
     .GL_MAX_UNIFORM_BUFFER_BINDINGS, .GL_UNIFORM_BUFFER_OFFSET_ALIGNMENT]
  let _max_vertex_uniform_blocks := glcore.glGetIntegerv .GL_MAX_VERTEX_UNIFORM_BLOCKS
  let _max_geometry_uniform_blocks := glcore.glGetIntegerv .GL_MAX_GEOMETRY_UNIFORM_BLOCKS
  let _max_fragment_uniform_blocks := glcore.glGetIntegerv .GL_MAX_FRAGMENT_UNIFORM_BLOCKS
  let _max_combined_uniform_blocks := glcore.glGetIntegerv .GL_MAX_COMBINED_UNIFORM_BLOCKS
  let _max_uniform_buffer_bindings := glcore.glGetIntegerv .GL_MAX_UNIFORM_BUFFER_BINDINGS
  let _uniform_buffer_offset_alignment :=
    glcore.glGetIntegerv .GL_UNIFORM_BUFFER_OFFSET_ALIGNMENT
  if ¬ (_max_vertex_uniform_blocks > 0 ∧ _max_geometry_uniform_blocks > 0
      ∧ _max_fragment_uniform_blocks > 0 ∧ _max_combined_uniform_blocks > 0
      ∧ _max_uniform_buffer_bindings > 0 ∧ _uniform_buffer_offset_alignment > 0)
    then ⟨none, q3⟩ else
  let q4 : List gl_pname :=
    if cfg.SCM_GL_CORE_BASE_OPENGL_VERSION ≥ cfg.SCM_GL_CORE_OPENGL_VERSION_410
    then q3 ++ [.GL_MAX_VIEWPORTS] else q3
  let _max_viewports : Int :=
    if cfg.SCM_GL_CORE_BASE_OPENGL_VERSION ≥ cfg.SCM_GL_CORE_OPENGL_VERSION_410
    then glcore.glGetIntegerv .GL_MAX_VIEWPORTS else 1
  if ¬ (_max_viewports > 0) then ⟨none, q4⟩ else
  ⟨some ⟨_max_vertex_attributes, _max_draw_buffers, _max_dual_source_draw_buffers,
      _max_texture_size, _max_texture_3d_size, _max_array_texture_layers, _max_samples,
      _max_depth_texture_samples, _max_color_texture_samples, _max_integer_samples,
      _max_texture_image_units, _max_texture_buffer_size,
      _max_frame_buffer_color_attachments, _max_vertex_uniform_blocks,
      _max_geometry_uniform_blocks, _max_fragment_uniform_blocks,
      _max_combined_uniform_blocks, _max_uniform_buffer_bindings,
      _uniform_buffer_offset_alignment, _max_viewports⟩, q4⟩


/-- A `render_context` object. -/
structure render_context where
  address : Nat
deriving DecidableEq, Repr

/-- What `new render_context(*this)` does: it gives the context, or throws an
exception derived from `std::exception` whose `what()` is the given text, or
throws an object of some other type, told apart here by a number. -/
inductive context_construction where
  | ok (main_context : render_context)
  | std_exception (what : std_string)
  | other_exception (thrown : Nat)
deriving DecidableEq, Repr

/-- A step of the constructor that reaches outside the device: a call to the
driver binding or the construction of the main context. -/
inductive construction_step where
  | initialize_call
  | version_supported (in_major in_minor : Nat)
  | is_supported (name : std_string)
  | glGetIntegerv (pname : gl_pname)
  | new_render_context
deriving DecidableEq, Repr

/-- How the constructor ends: the device exists, with its capability table
and main context; a `std::runtime_error` with the given message was thrown by
the constructor; an `assert` of `init_capabilities` ended the process; or an
exception thrown by the constructor of the main context, of a type the handler
does not name, left the constructor as it was thrown. -/
inductive construction_result where
  | constructed (capabilities : device_capabilities) (main_context : render_context)
  | raised (what : std_string)
  | aborted
  | escaped (thrown : Nat)
deriving DecidableEq, Repr

/-- The outcome of the constructor: how it ended, the log entries written and
the steps taken, both oldest first. -/
structure construction where
  result : construction_result
  log : List log_entry
  steps : List construction_step
deriving DecidableEq, Repr

/-- An unsigned integer streamed into a `std::ostringstream`: its decimal digits. -/
def decimal (n : Nat) : std_string := Nat.toDigits 10 n

/-- The local `req_version_major` of the constructor. -/
def req_version_major (cfg : build_config) : Nat :=
  cfg.SCM_GL_CORE_BASE_OPENGL_VERSION / 100

/-- The local `req_version_minor` of the constructor. The subtraction cannot
wrap, the product being at most the base version. -/
def req_version_minor (cfg : build_config) : Nat :=
  (cfg.SCM_GL_CORE_BASE_OPENGL_VERSION - req_version_major cfg * 100) / 10

/-- The constructor `render_device::render_device`. `new_render_context` is
what `new render_context(*this)` does. The handler `catch (const
std::exception& e)` takes the exceptions derived from `std::exception`; an
exception of any other type passes through the constructor. -/
def render_device_ctor (cfg : build_config) (glcore : gl3_core_binding)
    (new_render_context : context_construction) : construction :=
  if !glcore.initialize_result then
    let s := "render_device::render_device(): error initializing gl core.".toList
    ⟨.raised s, [⟨.glerr, some .fatal, s⟩], [.initialize_call]⟩
  else
  let version_step := construction_step.version_supported (req_version_major cfg)
    (req_version_minor cfg)
  if !glcore.version_supported (req_version_major cfg) (req_version_minor cfg) then
    let s := "render_device::render_device(): error initializing gl core ".toList
      ++ "(at least OpenGL ".toList
      ++ decimal (req_version_major cfg) ++ ".".toList ++ decimal (req_version_minor cfg)
      ++ " requiered, encountered version ".toList
      ++ decimal glcore.context_information._version_major ++ ".".toList
      ++ decimal glcore.context_information._version_minor ++ ").".toList
    ⟨.raised s, [⟨.glerr, some .fatal, s⟩], [.initialize_call, version_step]⟩
  else
  let version_info : log_entry := ⟨.glout, some .info,
    "render_device::render_device(): ".toList
      ++ "scm_gl_core OpenGL ".toList
      ++ decimal (req_version_major cfg) ++ ".".toList ++ decimal (req_version_minor cfg)
      ++ " support enabled on ".toList
      ++ decimal glcore.context_information._version_major ++ ".".toList
      ++ decimal glcore.context_information._version_minor
      ++ " context.".toList⟩
  let extension_steps : List construction_step :=
    if cfg.SCM_GL_CORE_USE_DIRECT_STATE_ACCESS
    then [.is_supported "GL_EXT_direct_state_access".toList] else []
  if cfg.SCM_GL_CORE_USE_DIRECT_STATE_ACCESS
      && !glcore.is_supported "GL_EXT_direct_state_access".toList then
    let s := "render_device::render_device(): error initializing gl core ".toList
      ++ "(missing requiered extension GL_EXT_direct_state_access).".toList
    ⟨.raised s, [version_info, ⟨.glerr, some .fatal, s⟩],
      [.initialize_call, version_step] ++ extension_steps⟩
  else
  let probe := init_capabilities cfg glcore
  let probe_steps := probe.queries.map construction_step.glGetIntegerv
  match probe.capabilities with
  | none =>
    ⟨.aborted, [version_info],
      [.initialize_call, version_step] ++ extension_steps ++ probe_steps⟩
  | some capabilities =>
    match new_render_context with
    | .std_exception what =>
      let s := "render_device::render_device(): error creating main_context (evoking error: ".toList
        ++ what ++ ").".toList
      ⟨.raised s, [version_info, ⟨.glerr, some .fatal, s⟩],
        [.initialize_call, version_step] ++ extension_steps ++ probe_steps
          ++ [.new_render_context]⟩
    | .other_exception thrown =>
      ⟨.escaped thrown, [version_info],
        [.initialize_call, version_step] ++ extension_steps ++ probe_steps
          ++ [.new_render_context]⟩
    | .ok main_context =>
      ⟨.constructed capabilities main_context, [version_info],
        [.initialize_call, version_step] ++ extension_steps ++ probe_steps
          ++ [.new_render_context]⟩

/-! ## Destruction of the device -/

/-- A step of the destructor. -/
inductive destruction_step where
  | main_context_reset
  | assert_registry_empty
deriving DecidableEq, Repr

/-- The outcome of the destructor: the steps in order, whether the condition
of the `assert` held, and the device as the `assert` saw it. -/
structure destruction where
  steps : List destruction_step
  assertion_holds : Bool
  device : render_device
deriving DecidableEq, Repr

/-- The destructor `render_device::~render_device`. `_main_context.reset()`
drops the reference of the device to the main context; `released_by_context`
lists the resources whose deleter `release_resource` runs because of that, the
ones whose last reference the context held (none when the context lives on or
holds none). The `assert` then compares the size of the registry with 0. -/
def render_device_dtor (dev : render_device) (released_by_context : List Nat) : destruction :=
  let at_assert := released_by_context.foldl release_resource dev
  ⟨[.main_context_reset, .assert_registry_empty],
    decide (0 = at_assert._registered_resources.size), at_assert⟩

/-! ## Reading the log of a failed creation -/

/-- A failed creation is reported: for every object that reports `fail()` the
log is one entry on `glerr`, with the given level, whose text contains the
state string of the object. -/
def reports_failure {α : Type} (proj : α → render_device_resource)
    (level : Option log_level) (log_of : α → List log_entry) : Prop :=
  ∀ o, (proj o).fail = true →
    ∃ e, log_of o = [e] ∧ e.stream = .glerr ∧ e.level = level
      ∧ (proj o).state_string <:+: e.text

/-- The text logged for a failed object that reports `bad()` differs from the
text logged for a failed object that does not. -/
def distinct_failure_texts {α : Type} (proj : α → render_device_resource)
    (log_of : α → List log_entry) : Prop :=
  ∀ o1 o2 e1 e2, (proj o1).fail = true → (proj o2).fail = true →
    (proj o1).bad = true → (proj o2).bad = false →
    log_of o1 = [e1] → log_of o2 = [e2] → e1.text ≠ e2.text

/-- Only the bad kind of failure is reported: a failed object that reports
`bad()` is logged as in `reports_failure`, one that does not is not logged. -/
def reports_bad_only {α : Type} (proj : α → render_device_resource)
    (level : Option log_level) (log_of : α → List log_entry) : Prop :=
  ∀ o, (proj o).fail = true →
    ((proj o).bad = true →
      ∃ e, log_of o = [e] ∧ e.stream = .glerr ∧ e.level = level
        ∧ (proj o).state_string <:+: e.text)
    ∧ ((proj o).bad = false → log_of o = [])

/-- The factory goes through `create_buffer`: `create_buffer` itself and the
`create_texture_buffer` overload that allocates its own data buffer. -/
def factory_call.uses_create_buffer : factory_call → Bool
  | .create_buffer _ => true
  | .create_texture_buffer_sized _ _ => true
  | _ => false

/-! ## Depth-stencil descriptors -/

/-- A `compare_func` enumerator. -/
abbrev compare_func := Nat

/-- Modelled from the spec: the value type `stencil_ops`, declared outside
`device.cpp`: the comparison and the three stencil operations of one face. -/
structure stencil_ops where
  _stencil_func : compare_func
  _stencil_sfail : Nat
  _stencil_dfail : Nat
  _stencil_dpass : Nat
deriving DecidableEq, Repr

/-- Modelled from the spec: the descriptor `depth_stencil_state_desc`, declared
outside `device.cpp`. A descriptor captures the parameters it is built from;
the constructor with eight arguments takes them in the order of the fields,
the front-face operations before the back-face operations. -/
structure depth_stencil_state_desc where
  _depth_test : Bool
  _depth_mask : Bool
  _depth_func : compare_func
  _stencil_test : Bool
  _stencil_rmask : Nat
  _stencil_wmask : Nat
  _stencil_front_ops : stencil_ops
  _stencil_back_ops : stencil_ops
deriving DecidableEq, Repr

set_option linter.unusedVariables false in
/-- The descriptor that the overload of `create_depth_stencil_state` with
separate front and back stencil operations builds: the expression
`depth_stencil_state_desc(in_depth_test, in_depth_mask, in_depth_func,
in_stencil_test, in_stencil_rmask, in_stencil_wmask, in_stencil_front_ops,
in_stencil_front_ops)` of the source. -/
def create_depth_stencil_state_front_back_desc (in_depth_test in_depth_mask : Bool)
    (in_depth_func : compare_func) (in_stencil_test : Bool)
    (in_stencil_rmask in_stencil_wmask : Nat)
    (in_stencil_front_ops in_stencil_back_ops : stencil_ops) : depth_stencil_state_desc :=
  depth_stencil_state_desc.mk in_depth_test in_depth_mask in_depth_func
    in_stencil_test in_stencil_rmask in_stencil_wmask
    in_stencil_front_ops in_stencil_front_ops

/-- The function `render_device::create_depth_stencil_state` taking separate
front and back stencil operations: it hands the descriptor it builds to the
overload taking a descriptor. `ds_state_ctor` is the constructor of
`depth_stencil_state`, declared outside `device.cpp`. -/
def create_depth_stencil_state_front_back
    (ds_state_ctor : depth_stencil_state_desc → depth_stencil_state)
    (dev : render_device) (in_depth_test in_depth_mask : Bool)
    (in_depth_func : compare_func) (in_stencil_test : Bool)
    (in_stencil_rmask in_stencil_wmask : Nat)
    (in_stencil_front_ops in_stencil_back_ops : stencil_ops) :
    outcome (Option depth_stencil_state) :=
  create_depth_stencil_state dev
    (ds_state_ctor (create_depth_stencil_state_front_back_desc in_depth_test in_depth_mask
      in_depth_func in_stencil_test in_stencil_rmask in_stencil_wmask
      in_stencil_front_ops in_stencil_back_ops))

/-! ## Sequences of macro definitions -/

/-- A call that writes the default macro defines of the device. -/
inductive define_call where
  | add_macro_define (in_name in_value : std_string)
  | add_macro_define_m ( in_macro : shader_macro)
  | add_macro_defines (in_macros : shader_macro_array)
deriving DecidableEq, Repr

/-- The device after one such call. -/
def define_call.run (dev : render_device) : define_call → render_device
  | .add_macro_define in_name in_value => scm_gl.add_macro_define dev in_name in_value
  | .add_macro_define_m in_macro => scm_gl.add_macro_define_m dev in_macro
  | .add_macro_defines in_macros => scm_gl.add_macro_defines dev in_macros

/-- The device after a sequence of such calls, first call first. -/
def run_defines (dev : render_device) (calls : List define_call) : render_device :=
  calls.foldl define_call.run dev

/-- The macro definitions a call makes, in the order it makes them. -/
def define_call.definitions : define_call → List shader_macro
  | .add_macro_define in_name in_value => [ shader_macro.mk in_name in_value]
  | .add_macro_define_m in_macro => [ in_macro]
  | .add_macro_defines in_macros => in_macros.macros

/-- All macro definitions of a sequence of calls, oldest first. -/
def all_definitions (calls : List define_call) : List shader_macro :=
  calls.flatMap define_call.definitions

/-- The most recent definition of a name in a list of definitions. -/
def most_recent (defs : List shader_macro) (name : std_string) : Option shader_macro :=
  (defs.filter (fun d => d._name == name)).getLast?

/-- The part of the combined macro list of `create_shader` that comes after
the macros of the call: what the loop over the default defines appended. -/
def create_shader_global_part (dev : render_device) (in_macros : shader_macro_array) :
    List shader_macro :=
  (create_shader_macro_array dev in_macros).macros.drop in_macros.macros.length

/-! ## Facts about the ordered containers -/

section std_set_facts

variable {α : Type} [LinearOrder α]

theorem std_set.mem_insert_list (x z : α) (l : List α) :
    z ∈ std_set.insert_list x l ↔ z = x ∨ z ∈ l := by
  induction l with
  | nil => simp [std_set.insert_list]
  | cons y ys ih =>
    unfold std_set.insert_list
    by_cases h1 : x < y
    · simp [h1]
    · by_cases h2 : y < x
      · simp [h1, h2, ih]
        tauto
      · have hxy : x = y := le_antisymm (not_lt.mp h2) (not_lt.mp h1)
        simp [h1, h2, hxy]

theorem std_set.insert_list_pairwise (x : α) (l : List α)
    (h : l.Pairwise (fun a b => a < b)) :
    (std_set.insert_list x l).Pairwise (fun a b => a < b) := by
  induction l with
  | nil => simp [std_set.insert_list]
  | cons y ys ih =>
    rw [List.pairwise_cons] at h
    unfold std_set.insert_list
    by_cases h1 : x < y
    · simp only [h1, if_true]
      refine List.pairwise_cons.mpr ⟨?_, List.pairwise_cons.mpr h⟩
      intro z hz
      rcases List.mem_cons.mp hz with rfl | hz
      · exact h1
      · exact lt_trans h1 (h.1 z hz)
    · by_cases h2 : y < x
      · simp only [h1, h2, if_true, if_false]
        refine List.pairwise_cons.mpr ⟨?_, ih h.2⟩
        intro z hz
        rcases (std_set.mem_insert_list x z ys).mp hz with rfl | hz
        · exact h2
        · exact h.1 z hz
      · simp only [h1, h2, if_false]
        exact List.pairwise_cons.mpr h

theorem std_set.find_list_of_not_mem (x : α) (l : List α) (h : x ∉ l) :
    std_set.find_list x l = none := by
  induction l with
  | nil => rfl
  | cons y ys ih =>
    have hne : x ≠ y := fun e => h (e ▸ List.mem_cons_self _ _)
    have hys : x ∉ ys := fun e => h (List.mem_cons_of_mem _ e)
    unfold std_set.find_list
    by_cases h1 : y < x
    · simp [h1, ih hys]
    · by_cases h2 : x < y
      · simp [h1, h2]
      · exact absurd (le_antisymm (not_lt.mp h1) (not_lt.mp h2)) hne

/-- Erasing at the iterator that `find` returns, or doing nothing at `end()`,
removes the element from the node sequence. -/
theorem std_set.find_list_erase (x : α) (l : List α) (h : l.Pairwise (fun a b => a < b)) :
    (match std_set.find_list x l with
      | some i => l.eraseIdx i
      | none => l) = l.erase x := by
  induction l with
  | nil => rfl
  | cons y ys ih =>
    rw [List.pairwise_cons] at h
    unfold std_set.find_list
    by_cases h1 : y < x
    · have hne : ¬ (y == x) = true := by simpa using ne_of_lt h1
      rw [List.erase_cons_tail hne, ← ih h.2]
      simp only [h1, if_true]
      cases std_set.find_list x ys <;> rfl
    · by_cases h2 : x < y
      · have hnot : x ∉ y :: ys := by
          intro hm
          rcases List.mem_cons.mp hm with e | hm
          · exact (ne_of_lt h2) e
          · exact lt_asymm h2 (h.1 x hm)
        simp only [h1, h2, if_true, if_false]
        exact (List.erase_of_not_mem hnot).symm
      · have hxy : x = y := le_antisymm (not_lt.mp h1) (not_lt.mp h2)
        subst hxy
        simp [h1]

theorem std_set.pairwise_lt_nodup (l : List α) (h : l.Pairwise (fun a b => a < b)) :
    l.Nodup :=
  h.imp (fun hab => ne_of_lt hab)

end std_set_facts

/-! ## Registry bookkeeping -/

theorem release_resource_elems (dev : render_device) (res_ptr : Nat)
    (hwf : dev._registered_resources.wf) :
    (release_resource dev res_ptr)._registered_resources.elems
      = dev._registered_resources.elems.erase res_ptr := by
  have h := std_set.find_list_erase res_ptr dev._registered_resources.elems hwf
  unfold release_resource std_set.find
  cases hf : std_set.find_list res_ptr dev._registered_resources.elems with
  | none => rw [hf] at h; simpa using h
  | some i => rw [hf] at h; simpa [std_set.erase] using h

theorem release_resource_wf (dev : render_device) (res_ptr : Nat)
    (hwf : dev._registered_resources.wf) :
    (release_resource dev res_ptr)._registered_resources.wf := by
  unfold std_set.wf
  rw [release_resource_elems dev res_ptr hwf]
  exact List.Pairwise.sublist (List.erase_sublist _ _) hwf

theorem release_resource_other_members (dev : render_device) (res_ptr : Nat) :
    (release_resource dev res_ptr)._default_macro_defines = dev._default_macro_defines
    ∧ (release_resource dev res_ptr)._default_include_paths = dev._default_include_paths := by
  unfold release_resource
  cases dev._registered_resources.find res_ptr <;> exact ⟨rfl, rfl⟩

theorem mem_release_resource (dev : render_device) (res_ptr q : Nat)
    (hwf : dev._registered_resources.wf) :
    q ∈ (release_resource dev res_ptr)._registered_resources.elems
      ↔ q ≠ res_ptr ∧ q ∈ dev._registered_resources.elems := by
  rw [release_resource_elems dev res_ptr hwf]
  exact (std_set.pairwise_lt_nodup _ hwf).mem_erase_iff

theorem mem_register_resource (dev : render_device) (res_ptr q : Nat) :
    q ∈ (register_resource dev res_ptr)._registered_resources.elems
      ↔ q = res_ptr ∨ q ∈ dev._registered_resources.elems :=
  std_set.mem_insert_list res_ptr q _

theorem register_resource_wf (dev : render_device) (res_ptr : Nat)
    (hwf : dev._registered_resources.wf) :
    (register_resource dev res_ptr)._registered_resources.wf :=
  std_set.insert_list_pairwise res_ptr _ hwf

/-- C4: releasing a pointer that is not registered leaves the device, and so
the registry with its elements and its size, as it was; `release_resource` is
a total function, there is no error outcome. -/
theorem release_resource_absent (dev : render_device) (res_ptr : Nat)
    (h : res_ptr ∉ dev._registered_resources.elems) :
    release_resource dev res_ptr = dev
    ∧ (release_resource dev res_ptr)._registered_resources.elems
        = dev._registered_resources.elems
    ∧ (release_resource dev res_ptr)._registered_resources.size
        = dev._registered_resources.size := by
  have hd : release_resource dev res_ptr = dev := by
    unfold release_resource std_set.find
    rw [std_set.find_list_of_not_mem res_ptr _ h]
  rw [hd]
  exact ⟨rfl, rfl, rfl⟩

theorem release_resource_absent_witness :
    release_resource ⟨⟨[3, 9]⟩, std_map.empty, std_set.empty⟩ 4
        = ⟨⟨[3, 9]⟩, std_map.empty, std_set.empty⟩
    ∧ (release_resource ⟨⟨[3, 9]⟩, std_map.empty, std_set.empty⟩ 4)._registered_resources.elems
        = [3, 9]
    ∧ (release_resource ⟨⟨[3, 9]⟩, std_map.empty, std_set.empty⟩ 4)._registered_resources.size
        = 2 :=
  release_resource_absent ⟨⟨[3, 9]⟩, std_map.empty, std_set.empty⟩ 4 (by decide)

/-- C5: releasing a registered pointer removes exactly that pointer: it is no
longer registered, the size drops by one, every other pointer stays registered
and none is added; the default macro defines and the default include paths are
untouched. -/
theorem release_resource_present (dev : render_device) (res_ptr : Nat)
    (hwf : dev._registered_resources.wf)
    (h : res_ptr ∈ dev._registered_resources.elems) :
    res_ptr ∉ (release_resource dev res_ptr)._registered_resources.elems
    ∧ (release_resource dev res_ptr)._registered_resources.size + 1
        = dev._registered_resources.size
    ∧ (∀ q, q ≠ res_ptr → q ∈ dev._registered_resources.elems →
        q ∈ (release_resource dev res_ptr)._registered_resources.elems)
    ∧ (∀ q, q ∈ (release_resource dev res_ptr)._registered_resources.elems →
        q ∈ dev._registered_resources.elems)
    ∧ (release_resource dev res_ptr)._registered_resources.wf
    ∧ (release_resource dev res_ptr)._default_macro_defines = dev._default_macro_defines
    ∧ (release_resource dev res_ptr)._default_include_paths = dev._default_include_paths := by
  refine ⟨?_, ?_, ?_, ?_, release_resource_wf dev res_ptr hwf,
    (release_resource_other_members dev res_ptr).1,
    (release_resource_other_members dev res_ptr).2⟩
  · intro hm
    exact ((mem_release_resource dev res_ptr res_ptr hwf).mp hm).1 rfl
  · unfold std_set.size
    rw [release_resource_elems dev res_ptr hwf, List.length_erase_of_mem h]
    have : 0 < dev._registered_resources.elems.length := List.length_pos_of_mem h
    omega
  · intro q hq hm
    exact (mem_release_resource dev res_ptr q hwf).mpr ⟨hq, hm⟩
  · intro q hm
    exact ((mem_release_resource dev res_ptr q hwf).mp hm).2

theorem release_resource_present_witness :
    5 ∉ (release_resource ⟨⟨[3, 5, 9]⟩, std_map.empty, std_set.empty⟩ 5)._registered_resources.elems
    ∧ (release_resource ⟨⟨[3, 5, 9]⟩, std_map.empty, std_set.empty⟩ 5)._registered_resources.size + 1
        = 3 :=
  ⟨(release_resource_present ⟨⟨[3, 5, 9]⟩, std_map.empty, std_set.empty⟩ 5
      (by decide) (by decide)).1,
   (release_resource_present ⟨⟨[3, 5, 9]⟩, std_map.empty, std_set.empty⟩ 5
      (by decide) (by decide)).2.1⟩

/-! ## Factories -/

theorem create_buffer_value (dev : render_device) (new_buffer : buffer) :
    (create_buffer dev new_buffer).value
      = if new_buffer.fail then none else some new_buffer := by
  unfold create_buffer
  by_cases hf : new_buffer.fail = true <;> by_cases hb : new_buffer.bad = true <;> simp [hf, hb]

theorem create_buffer_device (dev : render_device) (new_buffer : buffer) :
    (create_buffer dev new_buffer).device
      = if new_buffer.fail then release_resource dev new_buffer.address
        else register_resource dev new_buffer.address := by
  unfold create_buffer
  by_cases hf : new_buffer.fail = true <;> by_cases hb : new_buffer.bad = true <;> simp [hf, hb]

theorem create_texture_buffer_value (dev : render_device) (new_tex : texture_buffer) :
    (create_texture_buffer dev new_tex).value
      = if new_tex.fail then none else some new_tex := by
  unfold create_texture_buffer
  by_cases hf : new_tex.fail = true <;> by_cases hb : new_tex.bad = true <;> simp [hf, hb]

/-- C2, counterexample: `create_depth_stencil_state` hands back an object that
reports `fail()`. -/
theorem create_depth_stencil_state_returns_failed :
    ((factory_call.create_depth_stencil_state ⟨1, true, true, []⟩).run
        render_device.initial).value = some ⟨1, true, true, []⟩
    ∧ (⟨1, true, true, []⟩ : render_device_resource).fail = true := by
  decide

/-- C2, as amended: every factory except those for depth-stencil, rasterizer
and blend state returns only objects whose `fail()` is false; these three
return the object they built whatever its state. -/
theorem factory_returns_unfailed (dev : render_device) :
    (∀ (call : factory_call) (r : render_device_resource),
        call.is_descriptor_state = false → (call.run dev).value = some r → r.fail = false)
    ∧ (∀ o : render_device_resource,
        (create_depth_stencil_state dev o).value = some o
        ∧ (create_rasterizer_state dev o).value = some o
        ∧ (create_blend_state dev o).value = some o) := by
  refine ⟨?_, fun o => ⟨rfl, rfl, rfl⟩⟩
  intro call r hs h
  cases call with
  | create_buffer b =>
    simp only [factory_call.run, create_buffer_value] at h
    by_cases hf : b.fail = true
    · simp [hf] at h
    · simp [hf] at h; rw [← h]; simpa using hf
  | create_vertex_array o =>
    simp only [factory_call.run, create_vertex_array] at h
    by_cases hf : o.fail = true <;> by_cases hb : o.bad = true <;> simp [hf, hb] at h
    all_goals (rw [← h]; simpa using hf)
  | create_shader ss ctor st src m ip nm =>
    simp only [factory_call.run, create_shader] at h
    split_ifs at h with hf hb hl <;> simp at h
    all_goals (rw [← h]; simpa using hf)
  | create_program o =>
    simp only [factory_call.run, create_program] at h
    split_ifs at h with hf hb hl <;> simp at h
    all_goals (rw [← h]; simpa using hf)
  | create_texture_1d o =>
    simp only [factory_call.run, create_texture_1d] at h
    by_cases hf : o.fail = true <;> by_cases hb : o.bad = true <;> simp [hf, hb] at h
    all_goals (rw [← h]; simpa using hf)
  | create_texture_2d o =>
    simp only [factory_call.run, create_texture_2d] at h
    by_cases hf : o.fail = true <;> by_cases hb : o.bad = true <;> simp [hf, hb] at h
    all_goals (rw [← h]; simpa using hf)
  | create_texture_3d o =>
    simp only [factory_call.run, create_texture_3d] at h
    by_cases hf : o.fail = true <;> by_cases hb : o.bad = true <;> simp [hf, hb] at h
    all_goals (rw [← h]; simpa using hf)
  | create_texture_buffer o =>
    simp only [factory_call.run, create_texture_buffer_value] at h
    by_cases hf : o.fail = true <;> simp [hf] at h
    rw [← h]; simpa using hf
  | create_texture_buffer_sized b o =>
    simp only [factory_call.run, create_texture_buffer_sized, create_buffer_value,
      create_texture_buffer_value] at h
    by_cases hbf : b.fail = true <;> by_cases hf : o.fail = true <;> simp [hbf, hf] at h
    rw [← h]; simpa using hf
  | create_sampler_state o =>
    simp only [factory_call.run, create_sampler_state] at h
    by_cases hf : o.fail = true <;> by_cases hb : o.bad = true <;> simp [hf, hb] at h
    all_goals (rw [← h]; simpa using hf)
  | create_render_buffer o =>
    simp only [factory_call.run, create_render_buffer] at h
    by_cases hf : o.fail = true <;> by_cases hb : o.bad = true <;> simp [hf, hb] at h
    all_goals (rw [← h]; simpa using hf)
  | create_frame_buffer o =>
    simp only [factory_call.run, create_frame_buffer] at h
    by_cases hf : o.fail = true <;> by_cases hb : o.bad = true <;> simp [hf, hb] at h
    all_goals (rw [← h]; simpa using hf)
  | create_depth_stencil_state o => simp [factory_call.is_descriptor_state] at hs
  | create_rasterizer_state o => simp [factory_call.is_descriptor_state] at hs
  | create_blend_state o => simp [factory_call.is_descriptor_state] at hs
  | create_timer_query o =>
    simp only [factory_call.run, create_timer_query] at h
    by_cases hf : o.fail = true <;> by_cases hb : o.bad = true <;> simp [hf, hb] at h
    all_goals (rw [← h]; simpa using hf)

theorem factory_returns_unfailed_witness :
    ((factory_call.create_texture_2d ⟨7, false, false, []⟩).run render_device.initial).value
        = some ⟨7, false, false, []⟩
    ∧ (⟨7, false, false, []⟩ : render_device_resource).fail = false :=
  ⟨by decide,
   (factory_returns_unfailed render_device.initial).1
     (factory_call.create_texture_2d ⟨7, false, false, []⟩) ⟨7, false, false, []⟩
     (by decide) (by decide)⟩

/-- C3, counterexample: a vertex array that was created successfully is not in
the registry after the call. -/
theorem create_vertex_array_not_registered :
    (create_vertex_array render_device.initial ⟨7, false, false, []⟩).value
        = some ⟨7, false, false, []⟩
    ∧ 7 ∉ (create_vertex_array render_device.initial
        ⟨7, false, false, []⟩).device._registered_resources.elems := by
  decide

/-- C3, as amended: a buffer whose construction did not fail is returned and
its address is in the registry right after `create_buffer`; `create_vertex_array`
never changes the device, so a vertex array is returned unregistered. -/
theorem create_buffer_registers (dev : render_device) (new_buffer : buffer)
    (new_array : vertex_array) (hb : new_buffer.fail = false) :
    (create_buffer dev new_buffer).value = some new_buffer
    ∧ new_buffer.address ∈ (create_buffer dev new_buffer).device._registered_resources.elems
    ∧ (create_vertex_array dev new_array).device = dev
    ∧ (new_array.fail = false → (create_vertex_array dev new_array).value = some new_array) := by
  refine ⟨?_, ?_, ?_, ?_⟩
  · simp [create_buffer_value, hb]
  · rw [create_buffer_device]
    simp only [hb, Bool.false_eq_true, if_false]
    exact (mem_register_resource dev _ _).mpr (Or.inl rfl)
  · unfold create_vertex_array
    by_cases hf : new_array.fail = true <;> by_cases hbad : new_array.bad = true <;>
      simp [hf, hbad]
  · intro hf
    simp [create_vertex_array, hf]

theorem create_buffer_registers_witness :
    (create_buffer render_device.initial ⟨⟨7, false, false, []⟩, ⟨1, 2, 64⟩⟩).value
        = some ⟨⟨7, false, false, []⟩, ⟨1, 2, 64⟩⟩
    ∧ 7 ∈ (create_buffer render_device.initial
        ⟨⟨7, false, false, []⟩, ⟨1, 2, 64⟩⟩).device._registered_resources.elems :=
  ⟨(create_buffer_registers render_device.initial ⟨⟨7, false, false, []⟩, ⟨1, 2, 64⟩⟩
      ⟨8, false, false, []⟩ rfl).1,
   (create_buffer_registers render_device.initial ⟨⟨7, false, false, []⟩, ⟨1, 2, 64⟩⟩
      ⟨8, false, false, []⟩ rfl).2.1⟩

/-! ## Sequences of creations and releases -/

theorem run_calls_snoc (dev : render_device) (calls : List device_call) (c : device_call) :
    run_calls dev (calls ++ [c]) = c.run (run_calls dev calls) := by
  simp [run_calls, List.foldl_append]

theorem live_after_snoc (calls : List device_call) (c : device_call) (p : Nat) :
    live_after (calls ++ [c]) p
      = if c.concerns p = true then
          (match c with
            | .create_buffer _ => true
            | .release_resource _ => false)
        else live_after calls p := by
  unfold live_after
  rw [List.filter_append]
  by_cases hc : c.concerns p = true
  · simp only [List.filter_cons, hc, if_true, List.filter_nil, List.getLast?_append,
      List.getLast?_singleton]
    cases c <;> simp
  · simp [List.filter_cons, hc]

theorem fresh_at_snoc (calls : List device_call) (c : device_call) :
    fresh_at (calls ++ [c]) calls.length
      = (match c with
          | .create_buffer new_buffer => !live_after calls new_buffer.address
          | .release_resource _ => true) := by
  unfold fresh_at
  simp
  cases c <;> rfl

theorem fresh_at_append_left (calls rest : List device_call) (k : Nat) (hk : k < calls.length) :
    fresh_at (calls ++ rest) k = fresh_at calls k := by
  unfold fresh_at
  rw [List.getElem?_append_left hk, List.take_append_of_le_length (le_of_lt hk)]

theorem allocator_fresh_append_left (calls rest : List device_call)
    (h : allocator_fresh (calls ++ rest)) : allocator_fresh calls := by
  intro k hk
  rw [← fresh_at_append_left calls rest k hk]
  exact h k (by rw [List.length_append]; omega)

theorem allocator_fresh_take (calls : List device_call) (k : Nat)
    (h : allocator_fresh calls) : allocator_fresh (calls.take k) := by
  apply allocator_fresh_append_left (calls.take k) (calls.drop k)
  rw [List.take_append_drop]
  exact h

theorem registry_invariant (dev : render_device)
    (h0 : dev._registered_resources = std_set.empty) (calls : List device_call) :
    allocator_fresh calls →
      (run_calls dev calls)._registered_resources.wf
      ∧ ∀ p, p ∈ (run_calls dev calls)._registered_resources.elems
          ↔ live_after calls p = true := by
  induction calls using List.reverseRecOn with
  | nil =>
    intro _
    simp [run_calls, h0, std_set.empty, std_set.wf, live_after]
  | append_singleton init c ih =>
    intro hfresh
    have hinit := ih (allocator_fresh_append_left init [c] hfresh)
    have hlast : fresh_at (init ++ [c]) init.length = true :=
      hfresh init.length (by simp)
    rw [fresh_at_snoc] at hlast
    rw [run_calls_snoc]
    cases c with
    | release_resource q =>
      refine ⟨release_resource_wf _ q hinit.1, fun p => ?_⟩
      simp only [device_call.run]
      rw [mem_release_resource _ q p hinit.1, live_after_snoc, hinit.2 p]
      by_cases hqp : q = p
      · simp [device_call.concerns, hqp]
      · have hpq : p ≠ q := fun e => hqp e.symm
        simp [device_call.concerns, hqp, hpq]
    | create_buffer b =>
      simp only [device_call.run, create_buffer_device]
      by_cases hf : b.fail = true
      · simp only [hf, if_true]
        refine ⟨release_resource_wf _ _ hinit.1, fun p => ?_⟩
        rw [mem_release_resource _ _ p hinit.1, live_after_snoc, hinit.2 p]
        have hnl : live_after init b.address = false := by simpa using hlast
        simp only [device_call.concerns, hf, Bool.not_true, Bool.false_and,
          Bool.false_eq_true, if_false]
        constructor
        · exact fun h => h.2
        · intro h
          refine ⟨fun e => ?_, h⟩
          rw [e, hnl] at h
          exact Bool.false_ne_true h
      · have hf0 : b.fail = false := by simpa using hf
        simp only [hf0, Bool.false_eq_true, if_false]
        refine ⟨register_resource_wf _ _ hinit.1, fun p => ?_⟩
        rw [mem_register_resource, live_after_snoc, hinit.2 p]
        by_cases hap : b.address = p
        · simp [device_call.concerns, hf0, hap]
        · have hpa : p ≠ b.address := fun e => hap e.symm
          simp [device_call.concerns, hf0, hap, hpa]

theorem live_after_decompose (calls : List device_call) (p : Nat) :
    live_after calls p = true →
      ∃ pre b post, calls = pre ++ device_call.create_buffer b :: post
        ∧ b.fail = false ∧ b.address = p ∧ device_call.release_resource p ∉ post := by
  induction calls using List.reverseRecOn with
  | nil => intro h; simp [live_after] at h
  | append_singleton init c ih =>
    intro h
    rw [live_after_snoc] at h
    by_cases hc : c.concerns p = true
    · cases c with
      | release_resource q => simp [hc] at h
      | create_buffer b =>
        simp only [device_call.concerns, Bool.and_eq_true, Bool.not_eq_true',
          beq_iff_eq] at hc
        exact ⟨init, b, [], rfl, hc.1, hc.2, by simp⟩
    · simp only [hc, if_false] at h
      obtain ⟨pre, b, post, he, hf, ha, hn⟩ := ih h
      refine ⟨pre, b, post ++ [c], by simp [he], hf, ha, ?_⟩
      intro hm
      rcases List.mem_append.mp hm with hm | hm
      · exact hn hm
      · have hcp : device_call.release_resource p = c := List.mem_singleton.mp hm
        exact hc (by simp [← hcp, device_call.concerns])

theorem all_released_not_live (calls : List device_call) (h : all_released calls) (p : Nat) :
    live_after calls p = false := by
  by_contra hl
  have hl1 : live_after calls p = true := by simpa using hl
  obtain ⟨pre, b, post, he, hf, ha, hn⟩ := live_after_decompose calls p hl1
  subst he
  have hr := h pre.length (by simp)
  have h1 : (pre ++ device_call.create_buffer b :: post)[pre.length]?
      = some (device_call.create_buffer b) := by
    rw [List.getElem?_append_right (le_refl _)]
    simp
  have h2 : (pre ++ device_call.create_buffer b :: post).drop (pre.length + 1) = post := by
    simp
  unfold released_later at hr
  rw [h1, h2] at hr
  simp [hf, ha] at hr
  exact hn hr

/-- C1: on a device whose registry starts empty, after every prefix of a
sequence of `create_buffer` and `release_resource` calls the registry holds
exactly the addresses of the resources created and not yet released (and is a
well-formed set); when every successfully created resource is released later
in the sequence, the registry is empty at the end. The allocator hypothesis is
the guarantee of `new` that no object is built on top of a live one. -/
theorem registry_tracks_live_resources (dev : render_device) (calls : List device_call)
    (h0 : dev._registered_resources = std_set.empty) (hfresh : allocator_fresh calls) :
    (∀ k p, p ∈ (run_calls dev (calls.take k))._registered_resources.elems
        ↔ live_after (calls.take k) p = true)
    ∧ (∀ k, (run_calls dev (calls.take k))._registered_resources.wf)
    ∧ (all_released calls → (run_calls dev calls)._registered_resources = std_set.empty) := by
  refine ⟨fun k p => ?_, fun k => ?_, fun hrel => ?_⟩
  · exact (registry_invariant dev h0 _ (allocator_fresh_take calls k hfresh)).2 p
  · exact (registry_invariant dev h0 _ (allocator_fresh_take calls k hfresh)).1
  · have hinv := (registry_invariant dev h0 calls hfresh).2
    have hnil : (run_calls dev calls)._registered_resources.elems = [] := by
      apply List.eq_nil_iff_forall_not_mem.mpr
      intro p hp
      have := (hinv p).mp hp
      rw [all_released_not_live calls hrel p] at this
      exact Bool.false_ne_true this
    cases hreg : (run_calls dev calls)._registered_resources with
    | mk elems =>
      rw [hreg] at hnil
      simp only at hnil
      rw [hnil]
      rfl

theorem registry_tracks_live_resources_witness :
    allocator_fresh [device_call.create_buffer ⟨⟨7, false, false, []⟩, ⟨1, 2, 64⟩⟩,
        device_call.create_buffer ⟨⟨3, true, false, []⟩, ⟨1, 2, 16⟩⟩,
        device_call.release_resource 7]
    ∧ all_released [device_call.create_buffer ⟨⟨7, false, false, []⟩, ⟨1, 2, 64⟩⟩,
        device_call.create_buffer ⟨⟨3, true, false, []⟩, ⟨1, 2, 16⟩⟩,
        device_call.release_resource 7]
    ∧ (run_calls render_device.initial
        [device_call.create_buffer ⟨⟨7, false, false, []⟩, ⟨1, 2, 64⟩⟩,
         device_call.create_buffer ⟨⟨3, true, false, []⟩, ⟨1, 2, 16⟩⟩,
         device_call.release_resource 7])._registered_resources = std_set.empty :=
  ⟨by decide, by decide,
   (registry_tracks_live_resources render_device.initial
      [device_call.create_buffer ⟨⟨7, false, false, []⟩, ⟨1, 2, 64⟩⟩,
       device_call.create_buffer ⟨⟨3, true, false, []⟩, ⟨1, 2, 16⟩⟩,
       device_call.release_resource 7] rfl (by decide)).2.2 (by decide)⟩

/-! ## Shader macros and include paths -/

theorem foldl_add_macros (entries : List (std_string × shader_macro))
    (acc : shader_macro_array) :
    (entries.foldl (fun arr mb => arr.add mb.2._name mb.2._value) acc).macros
      = acc.macros ++ entries.map (fun mb => shader_macro.mk mb.2._name mb.2._value) := by
  induction entries generalizing acc with
  | nil => simp
  | cons e rest ih =>
    rw [List.foldl_cons, ih]
    simp [shader_macro_array.add]

theorem foldl_push_back (paths : List std_string) (acc : shader_include_path_list) :
    paths.foldl (fun l ip => l ++ [ip]) acc = acc ++ paths := by
  induction paths generalizing acc with
  | nil => simp
  | cons e rest ih =>
    rw [List.foldl_cons, ih]
    simp

theorem create_shader_value (shader_stage_string : shader_stage → std_string)
    (shader_ctor : shader_stage → std_string → std_string → shader_macro_array →
      shader_include_path_list → shader)
    (dev : render_device) (in_stage : shader_stage) (in_source : std_string)
    (in_macros : shader_macro_array) (in_inc_paths : shader_include_path_list)
    (in_source_name : std_string) :
    (create_shader shader_stage_string shader_ctor dev in_stage in_source in_macros
        in_inc_paths in_source_name).value
      = if (shader_ctor in_stage in_source in_source_name
            (create_shader_macro_array dev in_macros)
            (create_shader_include_paths dev in_inc_paths)).fail
        then none
        else some (shader_ctor in_stage in_source in_source_name
            (create_shader_macro_array dev in_macros)
            (create_shader_include_paths dev in_inc_paths)) := by
  unfold create_shader
  simp only []
  split_ifs <;> rfl

theorem first_match_append_of_mem (name : std_string) (l tail : List shader_macro)
    (h : ∃ m, m ∈ l ∧ m._name = name) :
    first_match name (l ++ tail) = first_match name l ∧ (first_match name l).isSome = true := by
  obtain ⟨m, hm, hn⟩ := h
  have hsome : (l.find? (fun m => m._name == name)).isSome = true := by
    rw [List.find?_isSome]
    exact ⟨m, hm, by simp [hn]⟩
  unfold first_match
  constructor
  · rw [List.find?_append]
    cases hf : l.find? (fun m => m._name == name) with
    | none => rw [hf] at hsome; simp at hsome
    | some x => simp
  · simpa using hsome

/-- C6: the macro list that `create_shader` hands to the shader constructor is
the macros of the call in their order followed by the default defines of the
device in the iteration order of the map; for a name the call defines, a
first-match lookup in the combined list gives the value of the call. -/
theorem create_shader_macro_order (dev : render_device) (in_macros : shader_macro_array) :
    (create_shader_macro_array dev in_macros).macros
        = in_macros.macros ++ dev._default_macro_defines.entries.map
            (fun mb => shader_macro.mk mb.2._name mb.2._value)
    ∧ (∀ name, (∃ m, m ∈ in_macros.macros ∧ m._name = name) →
        first_match name (create_shader_macro_array dev in_macros).macros
            = first_match name in_macros.macros
        ∧ (first_match name in_macros.macros).isSome = true)
    ∧ (∀ shader_stage_string shader_ctor in_stage in_source in_inc_paths in_source_name,
        (create_shader shader_stage_string shader_ctor dev in_stage in_source in_macros
            in_inc_paths in_source_name).value
          = if (shader_ctor in_stage in_source in_source_name
                (create_shader_macro_array dev in_macros)
                (create_shader_include_paths dev in_inc_paths)).fail
            then none
            else some (shader_ctor in_stage in_source in_source_name
                (create_shader_macro_array dev in_macros)
                (create_shader_include_paths dev in_inc_paths))) := by
  have hm : (create_shader_macro_array dev in_macros).macros
      = in_macros.macros ++ dev._default_macro_defines.entries.map
          (fun mb => shader_macro.mk mb.2._name mb.2._value) :=
    foldl_add_macros _ _
  refine ⟨hm, fun name h => ?_, fun sss ctor st src ip nm => ?_⟩
  · rw [hm]
    exact first_match_append_of_mem name _ _ h
  · exact create_shader_value sss ctor dev st src in_macros ip nm

theorem create_shader_macro_order_witness :
    first_match "FOO".toList
        (create_shader_macro_array
          (add_macro_define render_device.initial "FOO".toList "1".toList)
          ⟨[ shader_macro.mk "FOO".toList "2".toList]⟩).macros
      = some "2".toList :=
  (((create_shader_macro_order
      (add_macro_define render_device.initial "FOO".toList "1".toList)
      ⟨[ shader_macro.mk "FOO".toList "2".toList]⟩).2.1 "FOO".toList
        ⟨ shader_macro.mk "FOO".toList "2".toList, by decide, by decide⟩).1).trans (by decide)

/-- C7: the include path list that `create_shader` hands to the shader
constructor starts with the list of the call, unchanged, and continues with
the default include paths of the device, each of them exactly once; its
length is the sum of the two sizes. -/
theorem create_shader_include_path_order (dev : render_device)
    (in_inc_paths : shader_include_path_list) (hwf : dev._default_include_paths.wf) :
    create_shader_include_paths dev in_inc_paths
        = in_inc_paths ++ dev._default_include_paths.elems
    ∧ (create_shader_include_paths dev in_inc_paths).take in_inc_paths.length = in_inc_paths
    ∧ (create_shader_include_paths dev in_inc_paths).length
        = in_inc_paths.length + dev._default_include_paths.size
    ∧ (create_shader_include_paths dev in_inc_paths).drop in_inc_paths.length
        = dev._default_include_paths.elems
    ∧ ((create_shader_include_paths dev in_inc_paths).drop in_inc_paths.length).Nodup
    ∧ (∀ shader_stage_string shader_ctor in_stage in_source in_macros in_source_name,
        (create_shader shader_stage_string shader_ctor dev in_stage in_source in_macros
            in_inc_paths in_source_name).value
          = if (shader_ctor in_stage in_source in_source_name
                (create_shader_macro_array dev in_macros)
                (create_shader_include_paths dev in_inc_paths)).fail
            then none
            else some (shader_ctor in_stage in_source in_source_name
                (create_shader_macro_array dev in_macros)
                (create_shader_include_paths dev in_inc_paths))) := by
  have hp : create_shader_include_paths dev in_inc_paths
      = in_inc_paths ++ dev._default_include_paths.elems :=
    foldl_push_back _ _
  have hnd : dev._default_include_paths.elems.Nodup := std_set.pairwise_lt_nodup _ hwf
  refine ⟨hp, ?_, ?_, ?_, ?_, fun sss ctor st src m nm => ?_⟩
  · rw [hp]; simp
  · rw [hp]; simp [std_set.size]
  · rw [hp, List.drop_left]
  · rw [hp, List.drop_left]
    exact hnd
  · exact create_shader_value sss ctor dev st src m in_inc_paths nm

theorem create_shader_include_path_order_witness :
    create_shader_include_paths
        ⟨std_set.empty, std_map.empty, ⟨["/a".toList, "/b".toList]⟩⟩ ["/x".toList]
      = ["/x".toList, "/a".toList, "/b".toList] :=
  (create_shader_include_path_order
      ⟨std_set.empty, std_map.empty, ⟨["/a".toList, "/b".toList]⟩⟩ ["/x".toList]
      (by decide)).1

/-! ## Named include strings -/

theorem at_zero_ne_slash (in_path : std_string) (h : in_path.head? ≠ some '/') :
    in_path.at 0 ≠ '/' := by
  cases in_path with
  | nil => decide
  | cons c rest =>
    intro hc
    apply h
    simpa [std_string.at] using hc

theorem at_zero_eq_slash (in_path : std_string) (h : in_path.head? = some '/') :
    in_path.at 0 = '/' := by
  cases in_path with
  | nil => simp at h
  | cons c rest => simpa [std_string.at] using h

theorem find_last_of_not_mem (s : std_string) (c : Char) (h : c ∉ s) :
    s.find_last_of c = none := by
  induction s with
  | nil => rfl
  | cons x xs ih =>
    have hx : x ≠ c := fun e => h (e ▸ List.mem_cons_self _ _)
    have hxs : c ∉ xs := fun e => h (List.mem_cons_of_mem _ e)
    simp [std_string.find_last_of, ih hxs, hx]

theorem find_last_of_append (parent rest : std_string) (c : Char) (h : c ∉ rest) :
    std_string.find_last_of (parent ++ c :: rest) c = some parent.length := by
  induction parent with
  | nil => simp [std_string.find_last_of, find_last_of_not_mem rest c h]
  | cons x xs ih =>
    have ih2 : std_string.find_last_of (xs.append (c :: rest)) c = some xs.length := ih
    simp only [List.cons_append, std_string.find_last_of, List.length_cons]
    rw [ih2]

theorem add_include_string_early_return (glcore : gl3_core) (dev : render_device)
    (in_path in_source_string : std_string) (h : in_path.head? ≠ some '/') :
    (add_include_string glcore dev in_path in_source_string).value = false
    ∧ (add_include_string glcore dev in_path in_source_string).driver_calls = []
    ∧ (add_include_string glcore dev in_path in_source_string).device = dev := by
  have hat := at_zero_ne_slash in_path h
  unfold add_include_string
  by_cases hext : glcore.extension_ARB_shading_language_include = true
  · simp [hext, hat]
  · simp [hext]

/-- C8: for a path that does not begin with a slash (the empty path included)
`add_include_string` returns false, makes no driver call and leaves the whole
device, so also the set of include paths it keeps, unchanged. -/
theorem add_include_string_rejects_path (glcore : gl3_core) (dev : render_device)
    (in_path in_source_string : std_string) (h : in_path.head? ≠ some '/') :
    (add_include_string glcore dev in_path in_source_string).value = false
    ∧ (add_include_string glcore dev in_path in_source_string).driver_calls = []
    ∧ (add_include_string glcore dev in_path in_source_string).device = dev
    ∧ (add_include_string glcore dev in_path in_source_string).device._default_include_paths
        = dev._default_include_paths := by
  obtain ⟨hv, hc, hd⟩ := add_include_string_early_return glcore dev in_path in_source_string h
  exact ⟨hv, hc, hd, by rw [hd]⟩

theorem add_include_string_rejects_path_witness :
    (add_include_string ⟨true, fun _ => none⟩ render_device.initial
        "inc/common.glsl".toList "float x;".toList).value = false
    ∧ (add_include_string ⟨true, fun _ => none⟩ render_device.initial
        "inc/common.glsl".toList "float x;".toList).driver_calls = [] :=
  ⟨(add_include_string_rejects_path ⟨true, fun _ => none⟩ render_device.initial
      "inc/common.glsl".toList "float x;".toList (by decide)).1,
   (add_include_string_rejects_path ⟨true, fun _ => none⟩ render_device.initial
      "inc/common.glsl".toList "float x;".toList (by decide)).2.1⟩

/-- C9, counterexample: for the path `/foo` the call succeeds and the default
include path set stays empty, so it contains no parent path. -/
theorem add_include_string_root_file :
    (add_include_string ⟨true, fun _ => none⟩ render_device.initial
        "/foo".toList "float x;".toList).value = true
    ∧ (add_include_string ⟨true, fun _ => none⟩ render_device.initial
        "/foo".toList "float x;".toList).device._default_include_paths.elems = [] := by
  decide

theorem exists_last_occurrence (c : Char) (s : std_string) (h : c ∈ s) :
    ∃ parent rest, s = parent ++ c :: rest ∧ c ∉ rest := by
  induction s with
  | nil => simp at h
  | cons x xs ih =>
    by_cases hxs : c ∈ xs
    · obtain ⟨parent, rest, he, hr⟩ := ih hxs
      exact ⟨x :: parent, rest, by rw [he]; rfl, hr⟩
    · rcases List.mem_cons.mp h with e | hm
      · exact ⟨[], xs, by rw [e]; rfl, hxs⟩
      · exact absurd hm hxs

theorem add_include_string_accepted (glcore : gl3_core) (dev : render_device)
    (parent rest in_source_string : std_string)
    (hslash : (parent ++ '/' :: rest).head? = some '/')
    (hrest : '/' ∉ rest)
    (hext : glcore.extension_ARB_shading_language_include = true)
    (herr : glcore.error_after
      (named_string_call (parent ++ '/' :: rest) in_source_string) = none) :
    (add_include_string glcore dev (parent ++ '/' :: rest) in_source_string).value = true
    ∧ (add_include_string glcore dev (parent ++ '/' :: rest) in_source_string).driver_calls
        = [named_string_call (parent ++ '/' :: rest) in_source_string]
    ∧ (parent ≠ [] →
        (add_include_string glcore dev (parent ++ '/' :: rest) in_source_string).device
          = { dev with _default_include_paths := dev._default_include_paths.insert parent })
    ∧ (parent = [] →
        (add_include_string glcore dev (parent ++ '/' :: rest) in_source_string).device
          = dev) := by
  have hat := at_zero_eq_slash _ hslash
  have hfind := find_last_of_append parent rest '/' hrest
  have hsub : std_string.substr0 (parent ++ '/' :: rest) (some parent.length) = parent := by
    simp [std_string.substr0]
  by_cases hp : parent = []
  · have hemp : parent.isEmpty = true := by simp [hp]
    refine ⟨?_, ?_, fun hne => absurd hp hne, fun _ => ?_⟩ <;>
      simp [add_include_string, hext, hat, herr, hfind, hsub, hemp]
  · have hemp : parent.isEmpty = false := by simpa using hp
    refine ⟨?_, ?_, fun _ => ?_, fun he => absurd he hp⟩ <;>
      simp [add_include_string, hext, hat, herr, hfind, hsub, hemp]

/-- C9, as amended: for a path that begins with a slash, with the include
extension supported and no error reported by the driver, `add_include_string`
returns true after exactly one driver call. The path splits at its last slash
into a parent path and a slash-free rest; when the parent path is not empty it
is in the set of include paths afterwards, with every earlier member kept and
no other member written, and when it is empty the device is unchanged. -/
theorem add_include_string_registers_parent (glcore : gl3_core) (dev : render_device)
    (in_path in_source_string : std_string)
    (hslash : in_path.head? = some '/')
    (hext : glcore.extension_ARB_shading_language_include = true)
    (herr : glcore.error_after (named_string_call in_path in_source_string) = none) :
    (add_include_string glcore dev in_path in_source_string).value = true
    ∧ (add_include_string glcore dev in_path in_source_string).driver_calls
        = [named_string_call in_path in_source_string]
    ∧ ∃ parent rest, in_path = parent ++ '/' :: rest ∧ '/' ∉ rest
      ∧ (parent ≠ [] →
          parent ∈ (add_include_string glcore dev in_path
            in_source_string).device._default_include_paths.elems
          ∧ (∀ ip, ip ∈ (add_include_string glcore dev in_path
                in_source_string).device._default_include_paths.elems
              ↔ ip = parent ∨ ip ∈ dev._default_include_paths.elems)
          ∧ (add_include_string glcore dev in_path in_source_string).device._registered_resources
              = dev._registered_resources
          ∧ (add_include_string glcore dev in_path in_source_string).device._default_macro_defines
              = dev._default_macro_defines)
      ∧ (parent = [] →
          (add_include_string glcore dev in_path in_source_string).device = dev) := by
  have hmem : '/' ∈ in_path := by
    cases in_path with
    | nil => simp at hslash
    | cons c cs =>
      have hc : c = '/' := by simpa using hslash
      rw [hc]
      exact List.mem_cons_self _ _
  obtain ⟨parent, rest, he, hrest⟩ := exists_last_occurrence '/' in_path hmem
  subst he
  obtain ⟨hv, hc, hins, hsame⟩ :=
    add_include_string_accepted glcore dev parent rest in_source_string hslash hrest hext herr
  refine ⟨hv, hc, parent, rest, rfl, hrest, fun hne => ?_, hsame⟩
  rw [hins hne]
  exact ⟨(std_set.mem_insert_list parent parent _).mpr (Or.inl rfl),
    fun ip => std_set.mem_insert_list parent ip _, rfl, rfl⟩

theorem add_include_string_registers_parent_witness :
    "/scm/lib/common.glsl".toList.head? = some '/'
    ∧ (add_include_string ⟨true, fun _ => none⟩ render_device.initial
        "/scm/lib/common.glsl".toList "float x;".toList).value = true
    ∧ (add_include_string ⟨true, fun _ => none⟩ render_device.initial
        "/scm/lib/common.glsl".toList "float x;".toList).driver_calls
        = [named_string_call "/scm/lib/common.glsl".toList "float x;".toList] :=
  ⟨by decide,
   (add_include_string_registers_parent ⟨true, fun _ => none⟩ render_device.initial
      "/scm/lib/common.glsl".toList "float x;".toList (by decide) rfl rfl).1,
   (add_include_string_registers_parent ⟨true, fun _ => none⟩ render_device.initial
      "/scm/lib/common.glsl".toList "float x;".toList (by decide) rfl rfl).2.1⟩

/-- C10, counterexample: with a driver that reports no error, an empty source
string under the path `/a` is accepted. -/
theorem add_include_string_empty_source_accepted :
    (add_include_string ⟨true, fun _ => none⟩ render_device.initial "/a".toList []).value
      = true := by
  decide

/-- C10, as amended: with an empty path `add_include_string` returns false;
with an empty source string it returns false when the include extension is
unsupported or the path does not begin with a slash, and otherwise returns
false exactly when the driver reports an error for the call, there being no
local check of the source string. -/
theorem add_include_string_empty_arguments (glcore : gl3_core) (dev : render_device) :
    (∀ in_source_string, (add_include_string glcore dev [] in_source_string).value = false)
    ∧ (∀ in_path, glcore.extension_ARB_shading_language_include = false →
        (add_include_string glcore dev in_path []).value = false)
    ∧ (∀ in_path, in_path.head? ≠ some '/' →
        (add_include_string glcore dev in_path []).value = false)
    ∧ (∀ in_path, in_path.head? = some '/' →
        glcore.extension_ARB_shading_language_include = true →
        ((add_include_string glcore dev in_path []).value = false
          ↔ glcore.error_after (named_string_call in_path []) ≠ none)) := by
  refine ⟨fun src => ?_, fun in_path hext => ?_, fun in_path h => ?_, fun in_path h hext => ?_⟩
  · exact (add_include_string_early_return glcore dev [] src (by simp)).1
  · simp [add_include_string, hext]
  · exact (add_include_string_early_return glcore dev in_path [] h).1
  · have hat := at_zero_eq_slash _ h
    unfold add_include_string
    simp only [hext, hat]
    cases herr : glcore.error_after (named_string_call in_path []) with
    | none =>
      simp only [Bool.not_true, Bool.false_eq_true, if_false, ne_eq, not_true_eq_false,
        iff_false]
      split_ifs <;> simp
    | some e =>
      cases e <;> simp

theorem add_include_string_empty_arguments_witness :
    (add_include_string ⟨true, fun _ => some object_state.OS_ERROR_INVALID_VALUE⟩
        render_device.initial "/a".toList []).value = false :=
  ((add_include_string_empty_arguments
      ⟨true, fun _ => some object_state.OS_ERROR_INVALID_VALUE⟩ render_device.initial).2.2.2
      "/a".toList (by decide) rfl).mpr (by simp)

/-! ## Shaders from files -/

/-- C11: when `io::read_text_file` returns false, `create_shader_from_file`
returns an empty pointer, makes no call to the string based `create_shader`
(so no `shader` is constructed: the outcome is the same whatever the
constructor would do), leaves the device unchanged and logs the file name. -/
theorem create_shader_from_file_unreadable
    (read_text_file : std_string → Option std_string) (filename : std_string → std_string)
    (shader_stage_string : shader_stage → std_string)
    (shader_ctor : shader_stage → std_string → std_string → shader_macro_array →
      shader_include_path_list → shader)
    (dev : render_device) (in_stage : shader_stage) (in_file_name : std_string)
    (in_macros : shader_macro_array) (in_inc_paths : shader_include_path_list)
    (h : read_text_file in_file_name = none) :
    (create_shader_from_file read_text_file filename shader_stage_string shader_ctor dev
        in_stage in_file_name in_macros in_inc_paths).value = none
    ∧ (create_shader_from_file read_text_file filename shader_stage_string shader_ctor dev
        in_stage in_file_name in_macros in_inc_paths).create_shader_calls = []
    ∧ (create_shader_from_file read_text_file filename shader_stage_string shader_ctor dev
        in_stage in_file_name in_macros in_inc_paths).device = dev
    ∧ (create_shader_from_file read_text_file filename shader_stage_string shader_ctor dev
        in_stage in_file_name in_macros in_inc_paths).log
        = [⟨.glerr, none,
            "render_device::create_shader_from_file(): error reading shader file ".toList
              ++ in_file_name⟩]
    ∧ (∀ other_ctor,
        create_shader_from_file read_text_file filename shader_stage_string other_ctor dev
            in_stage in_file_name in_macros in_inc_paths
          = create_shader_from_file read_text_file filename shader_stage_string shader_ctor dev
            in_stage in_file_name in_macros in_inc_paths) := by
  refine ⟨?_, ?_, ?_, ?_, fun other_ctor => ?_⟩ <;> simp [create_shader_from_file, h]

theorem create_shader_from_file_unreadable_witness :
    (create_shader_from_file (fun _ => none) (fun n => n) (fun _ => "vertex".toList)
        (fun _ _ _ _ _ => ⟨⟨9, false, false, []⟩, []⟩) render_device.initial
        0 "missing.glslv".toList ⟨[]⟩ []).value = none
    ∧ (create_shader_from_file (fun _ => none) (fun n => n) (fun _ => "vertex".toList)
        (fun _ _ _ _ _ => ⟨⟨9, false, false, []⟩, []⟩) render_device.initial
        0 "missing.glslv".toList ⟨[]⟩ []).create_shader_calls = [] :=
  ⟨(create_shader_from_file_unreadable (fun _ => none) (fun n => n) (fun _ => "vertex".toList)
      (fun _ _ _ _ _ => ⟨⟨9, false, false, []⟩, []⟩) render_device.initial
      0 "missing.glslv".toList ⟨[]⟩ [] rfl).1,
   (create_shader_from_file_unreadable (fun _ => none) (fun n => n) (fun _ => "vertex".toList)
      (fun _ _ _ _ _ => ⟨⟨9, false, false, []⟩, []⟩) render_device.initial
      0 "missing.glslv".toList ⟨[]⟩ [] rfl).2.1⟩

/-! ## Resizing a buffer -/

/-- C12, counterexample: when the `buffer_data` request fails, `resize_buffer`
of a buffer of size 64 to size 128 reports failure and the descriptor still
reports 64. -/
theorem resize_buffer_request_fails :
    (resize_buffer (fun b _ _ => (false, b)) render_device.initial
        ⟨⟨7, false, false, []⟩, ⟨1, 2, 64⟩⟩ 128).value = false
    ∧ (resize_buffer (fun b _ _ => (false, b)) render_device.initial
        ⟨⟨7, false, false, []⟩, ⟨1, 2, 64⟩⟩ 128).buffer.descriptor._size = 64 := by
  decide

/-- C12, as amended: `resize_buffer` makes exactly one `buffer_data` request,
to the buffer object it was given, with the current descriptor in which only
the size is replaced by the new size, and with no initial data; it returns
exactly the flag of that request, leaves the buffer as the request left it and
leaves the device unchanged. A failed request is logged as an error with the
state string of the buffer, a successful one is not logged. When the request
succeeds and stores the descriptor it was given, the descriptor afterwards
reports the new size with binding and usage unchanged. -/
theorem resize_buffer_request
    (buffer_data : buffer → buffer_desc → Option Nat → Bool × buffer)
    (dev : render_device) (in_buffer : buffer) (in_size : Nat) :
    (resize_buffer buffer_data dev in_buffer in_size).buffer_data_calls
        = [⟨in_buffer.address,
            ⟨in_buffer.descriptor._bindings, in_buffer.descriptor._usage, in_size⟩, none⟩]
    ∧ (resize_buffer buffer_data dev in_buffer in_size).value
        = (buffer_data in_buffer
            ⟨in_buffer.descriptor._bindings, in_buffer.descriptor._usage, in_size⟩ none).1
    ∧ (resize_buffer buffer_data dev in_buffer in_size).buffer
        = (buffer_data in_buffer
            ⟨in_buffer.descriptor._bindings, in_buffer.descriptor._usage, in_size⟩ none).2
    ∧ (resize_buffer buffer_data dev in_buffer in_size).device = dev
    ∧ ((resize_buffer buffer_data dev in_buffer in_size).value = true →
        (resize_buffer buffer_data dev in_buffer in_size).log = [])
    ∧ ((resize_buffer buffer_data dev in_buffer in_size).value = false →
        (resize_buffer buffer_data dev in_buffer in_size).log
          = [⟨.glerr, some .error,
              "render_device::resize_buffer(): unable to reallocate buffer (".toList
                ++ (resize_buffer buffer_data dev in_buffer in_size).buffer.state_string
                ++ ").".toList⟩])
    ∧ ((∀ b d, (buffer_data b d none).1 = true → (buffer_data b d none).2.descriptor = d) →
        (resize_buffer buffer_data dev in_buffer in_size).value = true →
        (resize_buffer buffer_data dev in_buffer in_size).buffer.descriptor
          = ⟨in_buffer.descriptor._bindings, in_buffer.descriptor._usage, in_size⟩
        ∧ (resize_buffer buffer_data dev in_buffer in_size).buffer.descriptor._size
          = in_size) := by
  have hdesc : ({ in_buffer.descriptor with _size := in_size } : buffer_desc)
      = ⟨in_buffer.descriptor._bindings, in_buffer.descriptor._usage, in_size⟩ := rfl
  unfold resize_buffer
  simp only [hdesc]
  cases hr : (buffer_data in_buffer
      ⟨in_buffer.descriptor._bindings, in_buffer.descriptor._usage, in_size⟩ none).1
  · simp [hr]
  · simp only [hr, Bool.not_true, Bool.false_eq_true, if_false, true_and, implies_true,
      and_true, false_implies]
    refine ⟨fun hc => absurd hc (by decide), fun hstore _ => ?_⟩
    have hd := hstore _ _ hr
    rw [hd]
    exact ⟨rfl, rfl⟩

theorem resize_buffer_request_witness :
    (resize_buffer (fun b d _ => (true, { b with descriptor := d })) render_device.initial
        ⟨⟨7, false, false, []⟩, ⟨1, 2, 64⟩⟩ 128).value = true
    ∧ (resize_buffer (fun b d _ => (true, { b with descriptor := d })) render_device.initial
        ⟨⟨7, false, false, []⟩, ⟨1, 2, 64⟩⟩ 128).buffer.descriptor._size = 128 :=
  ⟨by decide,
   ((resize_buffer_request (fun b d _ => (true, { b with descriptor := d }))
      render_device.initial ⟨⟨7, false, false, []⟩, ⟨1, 2, 64⟩⟩ 128).2.2.2.2.2.2
      (fun _ _ _ => rfl) (by decide)).2⟩

/-! ## Construction of the device -/

theorem req_version_minor_tens_digit (cfg : build_config) :
    req_version_minor cfg = (cfg.SCM_GL_CORE_BASE_OPENGL_VERSION / 10) % 10 := by
  unfold req_version_minor req_version_major
  omega

theorem glGetIntegerv_step_ne (pname : gl_pname) :
    construction_step.glGetIntegerv pname ≠ construction_step.new_render_context := by
  intro h
  cases h

/-- The ways the constructor can end, with the log and the steps of each. -/
theorem render_device_ctor_raised (cfg : build_config) (glcore : gl3_core_binding)
    (new_render_context : context_construction) (what : std_string)
    (h : (render_device_ctor cfg glcore new_render_context).result = .raised what) :
    (render_device_ctor cfg glcore new_render_context).log.getLast?
      = some ⟨.glerr, some .fatal, what⟩ := by
  unfold render_device_ctor at h ⊢
  by_cases hinit : glcore.initialize_result = true
  · by_cases hver : glcore.version_supported (req_version_major cfg) (req_version_minor cfg) = true
    · by_cases hdsa : (cfg.SCM_GL_CORE_USE_DIRECT_STATE_ACCESS
          && !glcore.is_supported "GL_EXT_direct_state_access".toList) = true
      · simp only [hinit, hver, hdsa, Bool.not_true, Bool.false_eq_true, if_false, if_true] at h ⊢
        simp only [construction_result.raised.injEq] at h
        subst h
        rfl
      · simp only [hinit, hver, hdsa, Bool.not_true, Bool.false_eq_true, if_false] at h ⊢
        cases hcap : (init_capabilities cfg glcore).capabilities with
        | none => simp [hcap] at h
        | some caps =>
          cases new_render_context with
          | std_exception e =>
            simp only [hcap, construction_result.raised.injEq] at h ⊢
            subst h
            rfl
          | other_exception t => simp [hcap] at h
          | ok c => simp [hcap] at h
    · simp only [hinit, hver, Bool.not_true, Bool.false_eq_true, if_false, Bool.not_false,
        if_true, construction_result.raised.injEq] at h ⊢
      subst h
      rfl
  · simp only [hinit, Bool.not_false, if_true, construction_result.raised.injEq] at h ⊢
    subst h
    rfl

theorem render_device_ctor_fatal_entry (cfg : build_config) (glcore : gl3_core_binding)
    (new_render_context : context_construction) (e : log_entry)
    (he : e ∈ (render_device_ctor cfg glcore new_render_context).log)
    (hl : e.level = some .fatal) :
    (render_device_ctor cfg glcore new_render_context).result = .raised e.text := by
  unfold render_device_ctor at he ⊢
  by_cases hinit : glcore.initialize_result = true
  · by_cases hver : glcore.version_supported (req_version_major cfg) (req_version_minor cfg) = true
    · by_cases hdsa : (cfg.SCM_GL_CORE_USE_DIRECT_STATE_ACCESS
          && !glcore.is_supported "GL_EXT_direct_state_access".toList) = true
      · simp only [hinit, hver, hdsa, Bool.not_true, Bool.false_eq_true, if_false, if_true,
          List.mem_cons, List.mem_singleton, List.not_mem_nil, or_false] at he ⊢
        rcases he with he | he
        · rw [he] at hl; simp at hl
        · rw [he]
      · simp only [hinit, hver, hdsa, Bool.not_true, Bool.false_eq_true, if_false] at he ⊢
        cases hcap : (init_capabilities cfg glcore).capabilities with
        | none =>
          simp only [hcap, List.mem_singleton] at he
          rw [he] at hl; simp at hl
        | some caps =>
          cases new_render_context with
          | std_exception w =>
            simp only [hcap, List.mem_cons, List.mem_singleton, List.not_mem_nil,
              or_false] at he ⊢
            rcases he with he | he
            · rw [he] at hl; simp at hl
            · rw [he]
          | other_exception t =>
            simp only [hcap, List.mem_singleton] at he
            rw [he] at hl; simp at hl
          | ok c =>
            simp only [hcap, List.mem_singleton] at he
            rw [he] at hl; simp at hl
    · simp only [hinit, hver, Bool.not_true, Bool.false_eq_true, if_false, Bool.not_false,
        if_true, List.mem_singleton] at he ⊢
      rw [he]
  · simp only [hinit, Bool.not_false, if_true, List.mem_singleton] at he ⊢
    rw [he]

theorem render_device_ctor_no_version (cfg : build_config) (glcore : gl3_core_binding)
    (new_render_context : context_construction)
    (h : glcore.version_supported (req_version_major cfg) (req_version_minor cfg) = false) :
    (∃ what, (render_device_ctor cfg glcore new_render_context).result = .raised what)
    ∧ ((render_device_ctor cfg glcore new_render_context).steps = [.initialize_call]
      ∨ (render_device_ctor cfg glcore new_render_context).steps
          = [.initialize_call,
             .version_supported (req_version_major cfg) (req_version_minor cfg)]) := by
  unfold render_device_ctor
  by_cases hinit : glcore.initialize_result = true
  · simp only [hinit, h, Bool.not_true, Bool.false_eq_true, if_false, Bool.not_false, if_true]
    refine ⟨⟨_, rfl⟩, ?_⟩
    simp
  · simp only [hinit, Bool.not_false, if_true]
    refine ⟨⟨_, rfl⟩, ?_⟩
    simp

/-- C13: when `version_supported` answers false for the required version
(major the base version divided by 100, minor its tens digit), the constructor
throws a `std::runtime_error` right after logging the same message at level
fatal, calls `glGetIntegerv` for no capability and does not construct a main
context; after a successful `initialize()` the message is the one naming the
required and the encountered version. -/
theorem render_device_ctor_version_unsupported (cfg : build_config)
    (glcore : gl3_core_binding) (new_render_context : context_construction)
    (h : glcore.version_supported (cfg.SCM_GL_CORE_BASE_OPENGL_VERSION / 100)
      ((cfg.SCM_GL_CORE_BASE_OPENGL_VERSION / 10) % 10) = false) :
    (∃ what, (render_device_ctor cfg glcore new_render_context).result = .raised what
      ∧ (render_device_ctor cfg glcore new_render_context).log.getLast?
          = some ⟨.glerr, some .fatal, what⟩)
    ∧ (∀ pname, construction_step.glGetIntegerv pname
        ∉ (render_device_ctor cfg glcore new_render_context).steps)
    ∧ construction_step.new_render_context
        ∉ (render_device_ctor cfg glcore new_render_context).steps
    ∧ (glcore.initialize_result = true →
        (render_device_ctor cfg glcore new_render_context).result
          = .raised ("render_device::render_device(): error initializing gl core ".toList
              ++ "(at least OpenGL ".toList
              ++ decimal (cfg.SCM_GL_CORE_BASE_OPENGL_VERSION / 100) ++ ".".toList
              ++ decimal ((cfg.SCM_GL_CORE_BASE_OPENGL_VERSION / 10) % 10)
              ++ " requiered, encountered version ".toList
              ++ decimal glcore.context_information._version_major ++ ".".toList
              ++ decimal glcore.context_information._version_minor ++ ").".toList)) := by
  have hv : glcore.version_supported (req_version_major cfg) (req_version_minor cfg) = false := by
    rw [req_version_minor_tens_digit]
    exact h
  obtain ⟨⟨what, hw⟩, hsteps⟩ := render_device_ctor_no_version cfg glcore new_render_context hv
  refine ⟨⟨what, hw, render_device_ctor_raised cfg glcore new_render_context what hw⟩,
    fun pname => ?_, ?_, fun hinit => ?_⟩
  · rcases hsteps with hs | hs <;> rw [hs] <;> simp
  · rcases hsteps with hs | hs <;> rw [hs] <;> simp
  · rw [← req_version_minor_tens_digit]
    unfold render_device_ctor
    simp only [hinit, hv, Bool.not_true, Bool.false_eq_true, if_false, Bool.not_false, if_true]
    rfl

theorem render_device_ctor_version_unsupported_witness :
    (render_device_ctor ⟨410, 410, false⟩
        ⟨⟨true, fun _ => none⟩, true, fun a b => decide (a < 3 ∨ (a = 3 ∧ b ≤ 3)),
          fun _ => true, ⟨3, 3⟩, fun _ => 16⟩ (.ok ⟨1⟩)).steps
      = [.initialize_call, .version_supported 4 1]
    ∧ construction_step.new_render_context
        ∉ (render_device_ctor ⟨410, 410, false⟩
            ⟨⟨true, fun _ => none⟩, true, fun a b => decide (a < 3 ∨ (a = 3 ∧ b ≤ 3)),
              fun _ => true, ⟨3, 3⟩, fun _ => 16⟩ (.ok ⟨1⟩)).steps :=
  ⟨by decide,
   (render_device_ctor_version_unsupported ⟨410, 410, false⟩
      ⟨⟨true, fun _ => none⟩, true, fun a b => decide (a < 3 ∨ (a = 3 ∧ b ≤ 3)),
        fun _ => true, ⟨3, 3⟩, fun _ => 16⟩ (.ok ⟨1⟩) (by decide)).2.2.1⟩

theorem render_device_ctor_context_failure (cfg : build_config) (glcore : gl3_core_binding)
    (what : std_string)
    (hreach : construction_step.new_render_context
      ∈ (render_device_ctor cfg glcore (.std_exception what)).steps) :
    (render_device_ctor cfg glcore (.std_exception what)).result
      = .raised ("render_device::render_device(): error creating main_context (evoking error: ".toList
          ++ what ++ ").".toList) := by
  unfold render_device_ctor at hreach ⊢
  by_cases hinit : glcore.initialize_result = true
  · by_cases hver : glcore.version_supported (req_version_major cfg) (req_version_minor cfg) = true
    · by_cases hdsa : (cfg.SCM_GL_CORE_USE_DIRECT_STATE_ACCESS
          && !glcore.is_supported "GL_EXT_direct_state_access".toList) = true
      · simp only [hinit, hver, hdsa, Bool.not_true, Bool.false_eq_true, if_false, if_true]
          at hreach
        split_ifs at hreach <;> simp at hreach
      · simp only [hinit, hver, hdsa, Bool.not_true, Bool.false_eq_true, if_false] at hreach ⊢
        cases hcap : (init_capabilities cfg glcore).capabilities with
        | none =>
          simp only [hcap] at hreach
          split_ifs at hreach <;> simp at hreach
        | some caps => rfl
    · simp [hinit, hver] at hreach
  · simp [hinit] at hreach

theorem render_device_ctor_context_escape (cfg : build_config) (glcore : gl3_core_binding)
    (thrown : Nat)
    (hreach : construction_step.new_render_context
      ∈ (render_device_ctor cfg glcore (.other_exception thrown)).steps) :
    (render_device_ctor cfg glcore (.other_exception thrown)).result = .escaped thrown := by
  unfold render_device_ctor at hreach ⊢
  by_cases hinit : glcore.initialize_result = true
  · by_cases hver : glcore.version_supported (req_version_major cfg) (req_version_minor cfg) = true
    · by_cases hdsa : (cfg.SCM_GL_CORE_USE_DIRECT_STATE_ACCESS
          && !glcore.is_supported "GL_EXT_direct_state_access".toList) = true
      · simp only [hinit, hver, hdsa, Bool.not_true, Bool.false_eq_true, if_false, if_true]
          at hreach
        split_ifs at hreach <;> simp at hreach
      · simp only [hinit, hver, hdsa, Bool.not_true, Bool.false_eq_true, if_false] at hreach ⊢
        cases hcap : (init_capabilities cfg glcore).capabilities with
        | none =>
          simp only [hcap] at hreach
          split_ifs at hreach <;> simp at hreach
        | some caps => rfl
    · simp [hinit, hver] at hreach
  · simp [hinit] at hreach

/-- C14, counterexample: an exception thrown by the constructor of the main
context that is not derived from `std::exception` leaves the constructor of the
device as it was thrown; the only log entry is the version note at level
info. -/
theorem render_device_ctor_foreign_exception_escapes :
    (render_device_ctor ⟨330, 410, false⟩
        ⟨⟨true, fun _ => none⟩, true, fun a b => decide (a < 3 ∨ (a = 3 ∧ b ≤ 3)),
          fun _ => true, ⟨3, 3⟩, fun _ => 16⟩ (.other_exception 42)).result = .escaped 42
    ∧ (render_device_ctor ⟨330, 410, false⟩
        ⟨⟨true, fun _ => none⟩, true, fun a b => decide (a < 3 ∨ (a = 3 ∧ b ≤ 3)),
          fun _ => true, ⟨3, 3⟩, fun _ => 16⟩ (.other_exception 42)).log.map
          (fun e => e.level) = [some .info] := by
  decide

/-- C14, as amended: when the construction of the main context is reached and
throws an exception derived from `std::exception`, with message `what`, that
exception does not leave the constructor: a `std::runtime_error` is thrown
whose message contains `what` between a fixed head and tail, so differs from
it, and the same message is the last log entry, at level fatal. When it throws
an object of any other type, that object leaves the constructor as it was
thrown, no `std::runtime_error` is raised and no entry at level fatal is
written. -/
theorem render_device_ctor_context_exception (cfg : build_config)
    (glcore : gl3_core_binding) :
    (∀ what : std_string,
      construction_step.new_render_context
        ∈ (render_device_ctor cfg glcore (.std_exception what)).steps →
      (render_device_ctor cfg glcore (.std_exception what)).result
        = .raised ("render_device::render_device(): error creating main_context (evoking error: ".toList
            ++ what ++ ").".toList)
      ∧ what <:+: ("render_device::render_device(): error creating main_context (evoking error: ".toList
            ++ what ++ ").".toList)
      ∧ ("render_device::render_device(): error creating main_context (evoking error: ".toList
            ++ what ++ ").".toList) ≠ what
      ∧ (render_device_ctor cfg glcore (.std_exception what)).log.getLast?
        = some ⟨.glerr, some .fatal,
            "render_device::render_device(): error creating main_context (evoking error: ".toList
              ++ what ++ ").".toList⟩
      ∧ (⟨.glerr, some .fatal,
            "render_device::render_device(): error creating main_context (evoking error: ".toList
              ++ what ++ ").".toList⟩ : log_entry)
          ∈ (render_device_ctor cfg glcore (.std_exception what)).log)
    ∧ (∀ thrown : Nat,
      construction_step.new_render_context
        ∈ (render_device_ctor cfg glcore (.other_exception thrown)).steps →
      (render_device_ctor cfg glcore (.other_exception thrown)).result = .escaped thrown
      ∧ (∀ what, (render_device_ctor cfg glcore (.other_exception thrown)).result
          ≠ .raised what)
      ∧ (∀ e, e ∈ (render_device_ctor cfg glcore (.other_exception thrown)).log →
          e.level ≠ some .fatal)) := by
  refine ⟨fun what hreach => ?_, fun thrown hreach => ?_⟩
  · have hres := render_device_ctor_context_failure cfg glcore what hreach
    have hlast := render_device_ctor_raised cfg glcore (.std_exception what) _ hres
    refine ⟨hres, ⟨_, _, rfl⟩, ?_, hlast, List.mem_of_getLast?_eq_some hlast⟩
    intro heq
    have hlen := congrArg List.length heq
    rw [List.length_append, List.length_append] at hlen
    have h2 : (").".toList).length = 2 := rfl
    rw [h2] at hlen
    omega
  · have hres := render_device_ctor_context_escape cfg glcore thrown hreach
    refine ⟨hres, fun what hw => ?_, fun e he hl => ?_⟩
    · rw [hres] at hw
      cases hw
    · have hr := render_device_ctor_fatal_entry cfg glcore (.other_exception thrown) e he hl
      rw [hres] at hr
      cases hr

theorem render_device_ctor_context_exception_witness :
    (render_device_ctor ⟨330, 410, false⟩
        ⟨⟨true, fun _ => none⟩, true, fun a b => decide (a < 3 ∨ (a = 3 ∧ b ≤ 3)),
          fun _ => true, ⟨3, 3⟩, fun _ => 16⟩ (.std_exception "no default state".toList)).result
      = .raised "render_device::render_device(): error creating main_context (evoking error: no default state).".toList :=
  ((render_device_ctor_context_exception ⟨330, 410, false⟩
      ⟨⟨true, fun _ => none⟩, true, fun a b => decide (a < 3 ∨ (a = 3 ∧ b ≤ 3)),
        fun _ => true, ⟨3, 3⟩, fun _ => 16⟩).1 "no default state".toList (by decide)).1

/-- C16: whatever the driver writes for the capability queries, when
`init_capabilities` gets past all of its assertions every field of the
capability table is strictly positive. -/
theorem init_capabilities_positive (cfg : build_config) (glcore : gl3_core_binding)
    (caps : device_capabilities)
    (h : (init_capabilities cfg glcore).capabilities = some caps) :
    0 < caps._max_vertex_attributes ∧ 0 < caps._max_draw_buffers
    ∧ 0 < caps._max_dual_source_draw_buffers ∧ 0 < caps._max_texture_size
    ∧ 0 < caps._max_texture_3d_size ∧ 0 < caps._max_array_texture_layers
    ∧ 0 < caps._max_samples ∧ 0 < caps._max_depth_texture_samples
    ∧ 0 < caps._max_color_texture_samples ∧ 0 < caps._max_integer_samples
    ∧ 0 < caps._max_texture_image_units ∧ 0 < caps._max_texture_buffer_size
    ∧ 0 < caps._max_frame_buffer_color_attachments ∧ 0 < caps._max_vertex_uniform_blocks
    ∧ 0 < caps._max_geometry_uniform_blocks ∧ 0 < caps._max_fragment_uniform_blocks
    ∧ 0 < caps._max_combined_uniform_blocks ∧ 0 < caps._max_uniform_buffer_bindings
    ∧ 0 < caps._uniform_buffer_offset_alignment ∧ 0 < caps._max_viewports := by
  unfold init_capabilities at h
  simp only [] at h
  split_ifs at h with h1 h2 h3 h4 h5
  all_goals
    simp only [Option.some.injEq] at h
    subst h
    simp only [not_not, gt_iff_lt] at h1 h2 h3
  · simp only [not_not, gt_iff_lt] at h5
    exact ⟨h1.1, h1.2.1, h1.2.2, h2.1, h2.2.1, h2.2.2.1, h2.2.2.2.1, h2.2.2.2.2.1,
      h2.2.2.2.2.2.1, h2.2.2.2.2.2.2.1, h2.2.2.2.2.2.2.2.1, h2.2.2.2.2.2.2.2.2.1,
      h2.2.2.2.2.2.2.2.2.2, h3.1, h3.2.1, h3.2.2.1, h3.2.2.2.1, h3.2.2.2.2.1,
      h3.2.2.2.2.2, h5⟩
  · exact ⟨h1.1, h1.2.1, h1.2.2, h2.1, h2.2.1, h2.2.2.1, h2.2.2.2.1, h2.2.2.2.2.1,
      h2.2.2.2.2.2.1, h2.2.2.2.2.2.2.1, h2.2.2.2.2.2.2.2.1, h2.2.2.2.2.2.2.2.2.1,
      h2.2.2.2.2.2.2.2.2.2, h3.1, h3.2.1, h3.2.2.1, h3.2.2.2.1, h3.2.2.2.2.1,
      h3.2.2.2.2.2, by simp⟩

theorem init_capabilities_positive_witness :
    (init_capabilities ⟨330, 410, false⟩
        ⟨⟨true, fun _ => none⟩, true, fun _ _ => true, fun _ => true, ⟨3, 3⟩,
          fun _ => 16⟩).capabilities
      = some ⟨16, 16, 16, 16, 16, 16, 16, 16, 16, 16, 16, 16, 16, 16, 16, 16, 16, 16, 16, 1⟩
    ∧ 0 < (⟨16, 16, 16, 16, 16, 16, 16, 16, 16, 16, 16, 16, 16, 16, 16, 16, 16, 16, 16, 1⟩ :
        device_capabilities)._max_viewports :=
  ⟨by decide,
   (init_capabilities_positive ⟨330, 410, false⟩
      ⟨⟨true, fun _ => none⟩, true, fun _ _ => true, fun _ => true, ⟨3, 3⟩, fun _ => 16⟩
      ⟨16, 16, 16, 16, 16, 16, 16, 16, 16, 16, 16, 16, 16, 16, 16, 16, 16, 16, 16, 1⟩
      (by decide)).2.2.2.2.2.2.2.2.2.2.2.2.2.2.2.2.2.2.2⟩

/-- The branch of `init_capabilities` on the compile time base version: below
`SCM_GL_CORE_OPENGL_VERSION_410` the driver is never queried for
`GL_MAX_VIEWPORTS` and a completed table has `_max_viewports` equal to 1; at or
above it a completed run has made the query and stored the answer. -/
theorem init_capabilities_viewports_branch (cfg : build_config) (glcore : gl3_core_binding) :
    (cfg.SCM_GL_CORE_BASE_OPENGL_VERSION < cfg.SCM_GL_CORE_OPENGL_VERSION_410 →
        gl_pname.GL_MAX_VIEWPORTS ∉ (init_capabilities cfg glcore).queries
        ∧ (∀ caps, (init_capabilities cfg glcore).capabilities = some caps →
            caps._max_viewports = 1)
        ∧ ((∀ p, p ≠ gl_pname.GL_MAX_VIEWPORTS → 0 < glcore.glGetIntegerv p) →
            ∃ caps, (init_capabilities cfg glcore).capabilities = some caps
              ∧ caps._max_viewports = 1))
    ∧ (cfg.SCM_GL_CORE_OPENGL_VERSION_410 ≤ cfg.SCM_GL_CORE_BASE_OPENGL_VERSION →
        ∀ caps, (init_capabilities cfg glcore).capabilities = some caps →
          gl_pname.GL_MAX_VIEWPORTS ∈ (init_capabilities cfg glcore).queries
          ∧ caps._max_viewports = glcore.glGetIntegerv .GL_MAX_VIEWPORTS) := by
  refine ⟨fun hlt => ⟨?_, ?_, ?_⟩, fun hge caps h => ?_⟩
  · have hn : ¬ cfg.SCM_GL_CORE_BASE_OPENGL_VERSION ≥ cfg.SCM_GL_CORE_OPENGL_VERSION_410 :=
      not_le.mpr hlt
    unfold init_capabilities
    simp only [hn, if_false]
    split_ifs <;> simp
  · intro caps h
    have hn : ¬ cfg.SCM_GL_CORE_BASE_OPENGL_VERSION ≥ cfg.SCM_GL_CORE_OPENGL_VERSION_410 :=
      not_le.mpr hlt
    unfold init_capabilities at h
    simp only [hn, if_false] at h
    split_ifs at h
    simp only [Option.some.injEq] at h
    rw [← h]
  · intro hpos
    have hn : ¬ cfg.SCM_GL_CORE_BASE_OPENGL_VERSION ≥ cfg.SCM_GL_CORE_OPENGL_VERSION_410 :=
      not_le.mpr hlt
    unfold init_capabilities
    simp only [hn, if_false]
    simp [hpos]
  · unfold init_capabilities at h ⊢
    simp only [hge, ge_iff_le, if_true] at h ⊢
    split_ifs at h ⊢
    simp only [Option.some.injEq] at h
    rw [← h]
    simp

theorem base_version_below_410 (cfg : build_config) (glcore : gl3_core_binding)
    (h410 : cfg.SCM_GL_CORE_OPENGL_VERSION_410 = 410)
    (hbelow : glcore.context_information._version_major < 4
      ∨ (glcore.context_information._version_major = 4
        ∧ glcore.context_information._version_minor < 1))
    (hcons : ∀ in_major in_minor, glcore.version_supported in_major in_minor = true →
      in_major < glcore.context_information._version_major
      ∨ (in_major = glcore.context_information._version_major
        ∧ in_minor ≤ glcore.context_information._version_minor))
    (hver : glcore.version_supported (req_version_major cfg) (req_version_minor cfg) = true) :
    cfg.SCM_GL_CORE_BASE_OPENGL_VERSION < cfg.SCM_GL_CORE_OPENGL_VERSION_410 := by
  have h := hcons _ _ hver
  unfold req_version_minor req_version_major at h
  rw [h410]
  omega

theorem render_device_ctor_query_step (cfg : build_config) (glcore : gl3_core_binding)
    (new_render_context : context_construction) (pname : gl_pname)
    (h : construction_step.glGetIntegerv pname
      ∈ (render_device_ctor cfg glcore new_render_context).steps) :
    glcore.version_supported (req_version_major cfg) (req_version_minor cfg) = true
    ∧ pname ∈ (init_capabilities cfg glcore).queries := by
  unfold render_device_ctor at h
  by_cases hinit : glcore.initialize_result = true
  · by_cases hver : glcore.version_supported (req_version_major cfg) (req_version_minor cfg) = true
    · refine ⟨hver, ?_⟩
      by_cases hdsa : (cfg.SCM_GL_CORE_USE_DIRECT_STATE_ACCESS
          && !glcore.is_supported "GL_EXT_direct_state_access".toList) = true
      · simp only [hinit, hver, hdsa, Bool.not_true, Bool.false_eq_true, if_false, if_true]
          at h
        split_ifs at h <;> simp at h
      · simp only [hinit, hver, hdsa, Bool.not_true, Bool.false_eq_true, if_false] at h
        cases hcap : (init_capabilities cfg glcore).capabilities with
        | none =>
          simp only [hcap] at h
          split_ifs at h <;> simpa using h
        | some caps =>
          cases new_render_context <;>
            (simp only [hcap] at h
             split_ifs at h <;> simpa using h)
    · simp [hinit, hver] at h
  · simp [hinit] at h

theorem render_device_ctor_constructed (cfg : build_config) (glcore : gl3_core_binding)
    (new_render_context : context_construction) (caps : device_capabilities)
    (main_context : render_context)
    (h : (render_device_ctor cfg glcore new_render_context).result
      = .constructed caps main_context) :
    glcore.version_supported (req_version_major cfg) (req_version_minor cfg) = true
    ∧ (init_capabilities cfg glcore).capabilities = some caps := by
  unfold render_device_ctor at h
  by_cases hinit : glcore.initialize_result = true
  · by_cases hver : glcore.version_supported (req_version_major cfg) (req_version_minor cfg) = true
    · refine ⟨hver, ?_⟩
      by_cases hdsa : (cfg.SCM_GL_CORE_USE_DIRECT_STATE_ACCESS
          && !glcore.is_supported "GL_EXT_direct_state_access".toList) = true
      · simp only [hinit, hver, hdsa, Bool.not_true, Bool.false_eq_true, if_false, if_true]
          at h
        cases h
      · simp only [hinit, hver, hdsa, Bool.not_true, Bool.false_eq_true, if_false] at h
        cases hcap : (init_capabilities cfg glcore).capabilities with
        | none => simp [hcap] at h
        | some caps0 =>
          cases new_render_context with
          | ok c =>
            simp only [hcap, construction_result.constructed.injEq] at h
            rw [h.1]
          | std_exception w => simp [hcap] at h
          | other_exception t => simp [hcap] at h
    · simp [hinit, hver] at h
  · simp [hinit] at h

/-- C17: for a driver that reports a version below 4.1, the threshold macro
being 410 and `version_supported` answering true only for versions up to the
reported one, no run of the constructor queries `GL_MAX_VIEWPORTS`, and every
device that is constructed has `_max_viewports` equal to 1. Whenever the
version check lets the constructor reach `init_capabilities`, that function
does not query `GL_MAX_VIEWPORTS`, a table it completes has `_max_viewports`
equal to 1, and it completes when the driver answers the other queries with
positive values. -/
theorem viewports_below_threshold (cfg : build_config) (glcore : gl3_core_binding)
    (h410 : cfg.SCM_GL_CORE_OPENGL_VERSION_410 = 410)
    (hbelow : glcore.context_information._version_major < 4
      ∨ (glcore.context_information._version_major = 4
        ∧ glcore.context_information._version_minor < 1))
    (hcons : ∀ in_major in_minor, glcore.version_supported in_major in_minor = true →
      in_major < glcore.context_information._version_major
      ∨ (in_major = glcore.context_information._version_major
        ∧ in_minor ≤ glcore.context_information._version_minor)) :
    (∀ new_render_context, construction_step.glGetIntegerv .GL_MAX_VIEWPORTS
        ∉ (render_device_ctor cfg glcore new_render_context).steps)
    ∧ (∀ new_render_context caps main_context,
        (render_device_ctor cfg glcore new_render_context).result
          = .constructed caps main_context →
        caps._max_viewports = 1)
    ∧ (glcore.version_supported (req_version_major cfg) (req_version_minor cfg) = true →
        gl_pname.GL_MAX_VIEWPORTS ∉ (init_capabilities cfg glcore).queries
        ∧ (∀ caps, (init_capabilities cfg glcore).capabilities = some caps →
            caps._max_viewports = 1)
        ∧ ((∀ p, p ≠ gl_pname.GL_MAX_VIEWPORTS → 0 < glcore.glGetIntegerv p) →
            ∃ caps, (init_capabilities cfg glcore).capabilities = some caps
              ∧ caps._max_viewports = 1)) := by
  have hprobe : glcore.version_supported (req_version_major cfg) (req_version_minor cfg) = true →
      gl_pname.GL_MAX_VIEWPORTS ∉ (init_capabilities cfg glcore).queries
      ∧ (∀ caps, (init_capabilities cfg glcore).capabilities = some caps →
          caps._max_viewports = 1)
      ∧ ((∀ p, p ≠ gl_pname.GL_MAX_VIEWPORTS → 0 < glcore.glGetIntegerv p) →
          ∃ caps, (init_capabilities cfg glcore).capabilities = some caps
            ∧ caps._max_viewports = 1) := fun hver =>
    (init_capabilities_viewports_branch cfg glcore).1
      (base_version_below_410 cfg glcore h410 hbelow hcons hver)
  refine ⟨fun ctx hq => ?_, fun ctx caps mc hres => ?_, hprobe⟩
  · obtain ⟨hver, hin⟩ := render_device_ctor_query_step cfg glcore ctx _ hq
    exact (hprobe hver).1 hin
  · obtain ⟨hver, hcap⟩ := render_device_ctor_constructed cfg glcore ctx caps mc hres
    exact (hprobe hver).2.1 caps hcap

theorem viewports_below_threshold_witness :
    (render_device_ctor ⟨330, 410, false⟩
        ⟨⟨true, fun _ => none⟩, true, fun a b => decide (a < 3 ∨ (a = 3 ∧ b ≤ 3)),
          fun _ => true, ⟨3, 3⟩, fun _ => 16⟩ (.ok ⟨1⟩)).result
      = .constructed
          ⟨16, 16, 16, 16, 16, 16, 16, 16, 16, 16, 16, 16, 16, 16, 16, 16, 16, 16, 16, 1⟩ ⟨1⟩
    ∧ (⟨16, 16, 16, 16, 16, 16, 16, 16, 16, 16, 16, 16, 16, 16, 16, 16, 16, 16, 16, 1⟩ :
        device_capabilities)._max_viewports = 1
    ∧ construction_step.glGetIntegerv .GL_MAX_VIEWPORTS
        ∉ (render_device_ctor ⟨330, 410, false⟩
            ⟨⟨true, fun _ => none⟩, true, fun a b => decide (a < 3 ∨ (a = 3 ∧ b ≤ 3)),
              fun _ => true, ⟨3, 3⟩, fun _ => 16⟩ (.ok ⟨1⟩)).steps :=
  ⟨by decide,
   (viewports_below_threshold ⟨330, 410, false⟩
      ⟨⟨true, fun _ => none⟩, true, fun a b => decide (a < 3 ∨ (a = 3 ∧ b ≤ 3)),
        fun _ => true, ⟨3, 3⟩, fun _ => 16⟩ rfl (Or.inl (by decide))
      (fun a b h => by simpa using h)).2.1 (.ok ⟨1⟩) _ ⟨1⟩ (by decide),
   (viewports_below_threshold ⟨330, 410, false⟩
      ⟨⟨true, fun _ => none⟩, true, fun a b => decide (a < 3 ∨ (a = 3 ∧ b ≤ 3)),
        fun _ => true, ⟨3, 3⟩, fun _ => 16⟩ rfl (Or.inl (by decide))
      (fun a b h => by simpa using h)).1 (.ok ⟨1⟩)⟩

/-! ## Destruction of the device -/

theorem foldl_release_resource (ptrs : List Nat) (dev : render_device)
    (hwf : dev._registered_resources.wf) :
    (ptrs.foldl release_resource dev)._registered_resources.wf
    ∧ ∀ p, p ∈ (ptrs.foldl release_resource dev)._registered_resources.elems
        ↔ p ∈ dev._registered_resources.elems ∧ p ∉ ptrs := by
  induction ptrs generalizing dev with
  | nil => exact ⟨hwf, fun p => by simp⟩
  | cons q rest ih =>
    have hwf1 := release_resource_wf dev q hwf
    obtain ⟨hw, hm⟩ := ih (release_resource dev q) hwf1
    refine ⟨hw, fun p => ?_⟩
    rw [List.foldl_cons, hm p, mem_release_resource dev q p hwf]
    simp only [List.mem_cons, not_or]
    tauto

theorem render_device_dtor_holds_iff (dev : render_device) (released_by_context : List Nat) :
    (render_device_dtor dev released_by_context).assertion_holds = true
      ↔ (render_device_dtor dev released_by_context).device._registered_resources.elems = [] := by
  unfold render_device_dtor std_set.size
  simp only [decide_eq_true_eq]
  constructor
  · intro h
    exact List.length_eq_zero.mp h.symm
  · intro h
    rw [h]
    rfl

/-- C19: the destructor resets the main context first and checks its assertion
second. The assertion holds exactly when the registry, as the reset of the
context left it, is empty: it is violated when some registered resource has not
been released by then, and it holds when the registry was empty on entry, in
particular after a sequence of creations and releases in which every created
resource was released. -/
theorem render_device_dtor_assertion (dev : render_device) (released_by_context : List Nat)
    (hwf : dev._registered_resources.wf) :
    (render_device_dtor dev released_by_context).steps
        = [.main_context_reset, .assert_registry_empty]
    ∧ ((render_device_dtor dev released_by_context).assertion_holds = true
        ↔ (render_device_dtor dev released_by_context).device._registered_resources.elems = [])
    ∧ (∀ p, p ∈ (render_device_dtor dev released_by_context).device._registered_resources.elems
        ↔ p ∈ dev._registered_resources.elems ∧ p ∉ released_by_context)
    ∧ ((∃ p, p ∈ dev._registered_resources.elems ∧ p ∉ released_by_context) →
        (render_device_dtor dev released_by_context).assertion_holds = false)
    ∧ (dev._registered_resources.elems = [] →
        (render_device_dtor dev released_by_context).assertion_holds = true)
    ∧ (∀ (dev0 : render_device) (calls : List device_call),
        dev0._registered_resources = std_set.empty → allocator_fresh calls →
        all_released calls → dev = run_calls dev0 calls →
        (render_device_dtor dev released_by_context).assertion_holds = true) := by
  have hiff := render_device_dtor_holds_iff dev released_by_context
  have hmem : ∀ p, p ∈ (render_device_dtor dev released_by_context).device._registered_resources.elems
      ↔ p ∈ dev._registered_resources.elems ∧ p ∉ released_by_context :=
    (foldl_release_resource released_by_context dev hwf).2
  have hempty : dev._registered_resources.elems = [] →
      (render_device_dtor dev released_by_context).assertion_holds = true := by
    intro he
    apply hiff.mpr
    apply List.eq_nil_iff_forall_not_mem.mpr
    intro p hp
    have := ((hmem p).mp hp).1
    rw [he] at this
    exact List.not_mem_nil _ this
  refine ⟨rfl, hiff, hmem, ?_, hempty, ?_⟩
  · rintro ⟨p, hp, hnp⟩
    cases hb : (render_device_dtor dev released_by_context).assertion_holds with
    | false => rfl
    | true =>
      have hnil := hiff.mp hb
      have hin := (hmem p).mpr ⟨hp, hnp⟩
      rw [hnil] at hin
      exact absurd hin (List.not_mem_nil _)
  · intro dev0 calls h0 hfresh hrel hdev
    apply hempty
    apply List.eq_nil_iff_forall_not_mem.mpr
    intro p hp
    rw [hdev] at hp
    have hl := ((registry_invariant dev0 h0 calls hfresh).2 p).mp hp
    rw [all_released_not_live calls hrel p] at hl
    exact Bool.false_ne_true hl

theorem render_device_dtor_assertion_witness :
    (render_device_dtor ⟨⟨[3, 5]⟩, std_map.empty, std_set.empty⟩ [3]).assertion_holds = false
    ∧ (render_device_dtor ⟨⟨[3, 5]⟩, std_map.empty, std_set.empty⟩ [3]).steps
        = [.main_context_reset, .assert_registry_empty] :=
  ⟨(render_device_dtor_assertion ⟨⟨[3, 5]⟩, std_map.empty, std_set.empty⟩ [3]
      (by decide)).2.2.2.1 ⟨5, by decide, by decide⟩,
   (render_device_dtor_assertion ⟨⟨[3, 5]⟩, std_map.empty, std_set.empty⟩ [3]
      (by decide)).1⟩

/-! ## The log of a failed creation -/

theorem append_ne_of_take_ne (n : Nat) (a b s t : std_string)
    (ha : n ≤ a.length) (hb : n ≤ b.length) (h : a.take n ≠ b.take n) :
    a ++ s ≠ b ++ t := by
  intro he
  apply h
  have := congrArg (List.take n) he
  rwa [List.take_append_of_le_length ha, List.take_append_of_le_length hb] at this

/-- A factory whose log for a failed object is one entry, built from one head
for the bad case and another head for the other case, reports both kinds of
failure with distinct texts as soon as the two heads differ. -/
theorem reports_of_two_heads {α : Type} (proj : α → render_device_resource)
    (level : Option log_level) (log_of : α → List log_entry)
    (head_bad mid_bad head_other mid_other : std_string) (tail_bad tail_other : α → std_string)
    (hshape : ∀ o, (proj o).fail = true →
      log_of o = [⟨.glerr, level,
        if (proj o).bad = true
        then head_bad ++ (mid_bad ++ ((proj o).state_string ++ tail_bad o))
        else head_other ++ (mid_other ++ ((proj o).state_string ++ tail_other o))⟩])
    (n : Nat) (ha : n ≤ head_bad.length) (hb : n ≤ head_other.length)
    (hne : head_bad.take n ≠ head_other.take n) :
    reports_failure proj level log_of ∧ distinct_failure_texts proj log_of := by
  constructor
  · intro o hf
    refine ⟨_, hshape o hf, rfl, rfl, ?_⟩
    by_cases hbad : (proj o).bad = true
    · simp only [hbad, if_true]
      exact ⟨head_bad ++ mid_bad, tail_bad o, by simp [List.append_assoc]⟩
    · simp only [hbad, if_false]
      exact ⟨head_other ++ mid_other, tail_other o, by simp [List.append_assoc]⟩
  · intro o1 o2 e1 e2 hf1 hf2 hb1 hb2 h1 h2
    rw [hshape o1 hf1] at h1
    rw [hshape o2 hf2] at h2
    simp only [hb1, hb2, if_true, Bool.false_eq_true, if_false, List.cons.injEq,
      and_true] at h1 h2
    rw [← h1, ← h2]
    exact append_ne_of_take_ne n _ _ _ _ ha hb hne

/-- A factory that logs one entry for a bad object and nothing for an object
that failed otherwise reports only the bad kind of failure. -/
theorem reports_of_one_head {α : Type} (proj : α → render_device_resource)
    (level : Option log_level) (log_of : α → List log_entry)
    (head_bad tail_bad : std_string)
    (hshape : ∀ o, (proj o).fail = true →
      log_of o = if (proj o).bad = true
        then [⟨.glerr, level, head_bad ++ (proj o).state_string ++ tail_bad⟩]
        else []) :
    reports_bad_only proj level log_of := by
  intro o hf
  constructor
  · intro hbad
    refine ⟨_, by rw [hshape o hf, if_pos hbad], rfl, rfl, ⟨_, _, rfl⟩⟩
  · intro hbad
    rw [hshape o hf]
    simp [hbad]

theorem create_buffer_log (dev : render_device) :
    reports_failure buffer.torender_device_resource (some .error)
        (fun o => (create_buffer dev o).log)
    ∧ distinct_failure_texts buffer.torender_device_resource
        (fun o => (create_buffer dev o).log) := by
  refine reports_of_two_heads _ _ _
    "render_device::create_buffer(): unable to create buffer object (".toList []
    "render_device::create_buffer(): unable to allocate buffer (".toList []
    (fun _ => ").".toList) (fun _ => ").".toList) ?_ 50 (by decide) (by decide) (by decide)
  intro o hf
  by_cases hb : o.bad = true <;>
    simp only [create_buffer, hf, hb, if_true, if_false, Bool.false_eq_true,
      List.nil_append, List.append_assoc]

theorem create_vertex_array_log (dev : render_device) :
    reports_failure (id : render_device_resource → render_device_resource) (some .error)
        (fun o => (create_vertex_array dev o).log)
    ∧ distinct_failure_texts (id : render_device_resource → render_device_resource)
        (fun o => (create_vertex_array dev o).log) := by
  refine reports_of_two_heads _ _ _
    "render_device::create_vertex_array(): unable to create vertex array object (".toList []
    "render_device::create_vertex_array(): unable to initialize vertex array object (".toList []
    (fun _ => ").".toList) (fun _ => ").".toList) ?_ 50 (by decide) (by decide) (by decide)
  intro o hf
  have hf1 : o.fail = true := hf
  by_cases hb : o.bad = true <;>
    simp only [create_vertex_array, hf1, hb, id, if_true, if_false, Bool.false_eq_true,
      List.nil_append, List.append_assoc]

theorem create_texture_1d_log (dev : render_device) :
    reports_failure (id : render_device_resource → render_device_resource) (some .error)
        (fun o => (create_texture_1d dev o).log)
    ∧ distinct_failure_texts (id : render_device_resource → render_device_resource)
        (fun o => (create_texture_1d dev o).log) := by
  refine reports_of_two_heads _ _ _
    "render_device::create_texture_1d(): unable to create texture object (".toList []
    "render_device::create_texture_1d(): unable to allocate texture image data (".toList []
    (fun _ => ").".toList) (fun _ => ").".toList) ?_ 50 (by decide) (by decide) (by decide)
  intro o hf
  have hf1 : o.fail = true := hf
  by_cases hb : o.bad = true <;>
    simp only [create_texture_1d, hf1, hb, id, if_true, if_false, Bool.false_eq_true,
      List.nil_append, List.append_assoc]

theorem create_texture_2d_log (dev : render_device) :
    reports_failure (id : render_device_resource → render_device_resource) (some .error)
        (fun o => (create_texture_2d dev o).log)
    ∧ distinct_failure_texts (id : render_device_resource → render_device_resource)
        (fun o => (create_texture_2d dev o).log) := by
  refine reports_of_two_heads _ _ _
    "render_device::create_texture_2d(): unable to create texture object (".toList []
    "render_device::create_texture_2d(): unable to allocate texture image data (".toList []
    (fun _ => ").".toList) (fun _ => ").".toList) ?_ 50 (by decide) (by decide) (by decide)
  intro o hf
  have hf1 : o.fail = true := hf
  by_cases hb : o.bad = true <;>
    simp only [create_texture_2d, hf1, hb, id, if_true, if_false, Bool.false_eq_true,
      List.nil_append, List.append_assoc]

theorem create_texture_3d_log (dev : render_device) :
    reports_failure (id : render_device_resource → render_device_resource) (some .error)
        (fun o => (create_texture_3d dev o).log)
    ∧ distinct_failure_texts (id : render_device_resource → render_device_resource)
        (fun o => (create_texture_3d dev o).log) := by
  refine reports_of_two_heads _ _ _
    "render_device::create_texture_3d(): unable to create texture object (".toList []
    "render_device::create_texture_3d(): unable to allocate texture image data (".toList []
    (fun _ => ").".toList) (fun _ => ").".toList) ?_ 50 (by decide) (by decide) (by decide)
  intro o hf
  have hf1 : o.fail = true := hf
  by_cases hb : o.bad = true <;>
    simp only [create_texture_3d, hf1, hb, id, if_true, if_false, Bool.false_eq_true,
      List.nil_append, List.append_assoc]

theorem create_texture_buffer_log (dev : render_device) :
    reports_failure (id : render_device_resource → render_device_resource) (some .error)
        (fun o => (create_texture_buffer dev o).log)
    ∧ distinct_failure_texts (id : render_device_resource → render_device_resource)
        (fun o => (create_texture_buffer dev o).log) := by
  refine reports_of_two_heads _ _ _
    "render_device::create_texture_buffer(): unable to create texture buffer object (".toList []
    "render_device::create_texture_buffer(): unable to allocate or attach texture buffer data (".toList []
    (fun _ => ").".toList) (fun _ => ").".toList) ?_ 60 (by decide) (by decide) (by decide)
  intro o hf
  have hf1 : o.fail = true := hf
  by_cases hb : o.bad = true <;>
    simp only [create_texture_buffer, hf1, hb, id, if_true, if_false, Bool.false_eq_true,
      List.nil_append, List.append_assoc]

theorem create_shader_log (shader_stage_string : shader_stage → std_string)
    (dev : render_device) (in_stage : shader_stage) (in_source : std_string)
    (in_macros : shader_macro_array) (in_inc_paths : shader_include_path_list)
    (in_source_name : std_string) :
    reports_failure shader.torender_device_resource none
        (fun o => (create_shader shader_stage_string (fun _ _ _ _ _ => o) dev in_stage
          in_source in_macros in_inc_paths in_source_name).log)
    ∧ distinct_failure_texts shader.torender_device_resource
        (fun o => (create_shader shader_stage_string (fun _ _ _ _ _ => o) dev in_stage
          in_source in_macros in_inc_paths in_source_name).log) := by
  refine reports_of_two_heads _ _ _
    "render_device::create_shader(): unable to create shader object (".toList
    ("name: ".toList ++ (in_source_name ++ (", ".toList
      ++ ("stage: ".toList ++ (shader_stage_string in_stage ++ ", ".toList)))))
    "render_device::create_shader(): unable to compile shader (".toList
    ("name: ".toList ++ (in_source_name ++ (", ".toList
      ++ ("stage: ".toList ++ (shader_stage_string in_stage ++ ", ".toList)))))
    (fun _ => ").".toList) (fun o => "):".toList ++ (nline ++ o.info_log))
    ?_ 50 (by decide) (by decide) (by decide)
  intro o hf
  by_cases hb : o.bad = true <;>
    simp only [create_shader, hf, hb, if_true, if_false, Bool.false_eq_true,
      List.append_assoc]

theorem create_program_log (dev : render_device) :
    reports_failure program.torender_device_resource none
        (fun o => (create_program dev o).log)
    ∧ distinct_failure_texts program.torender_device_resource
        (fun o => (create_program dev o).log) := by
  refine reports_of_two_heads _ _ _
    "render_device::create_program(): unable to create shader object (".toList []
    "render_device::create_program(): error during link operation (".toList []
    (fun _ => ").".toList) (fun o => "):".toList ++ (nline ++ o.info_log))
    ?_ 50 (by decide) (by decide) (by decide)
  intro o hf
  by_cases hb : o.bad = true <;>
    simp only [create_program, hf, hb, if_true, if_false, Bool.false_eq_true,
      List.nil_append, List.append_assoc]

theorem create_sampler_state_log (dev : render_device) :
    reports_bad_only (id : render_device_resource → render_device_resource) (some .error)
        (fun o => (create_sampler_state dev o).log) := by
  refine reports_of_one_head _ _ _
    "render_device::create_sampler_state(): unable to create sampler state object (".toList ").".toList ?_
  intro o hf
  have hf1 : o.fail = true := hf
  by_cases hb : o.bad = true <;>
    simp only [create_sampler_state, hf1, hb, id, if_true, if_false, Bool.false_eq_true]

theorem create_render_buffer_log (dev : render_device) :
    reports_bad_only (id : render_device_resource → render_device_resource) (some .error)
        (fun o => (create_render_buffer dev o).log) := by
  refine reports_of_one_head _ _ _
    "render_device::create_render_buffer(): unable to create render buffer object (".toList ").".toList ?_
  intro o hf
  have hf1 : o.fail = true := hf
  by_cases hb : o.bad = true <;>
    simp only [create_render_buffer, hf1, hb, id, if_true, if_false, Bool.false_eq_true]

theorem create_frame_buffer_log (dev : render_device) :
    reports_bad_only (id : render_device_resource → render_device_resource) (some .error)
        (fun o => (create_frame_buffer dev o).log) := by
  refine reports_of_one_head _ _ _
    "render_device::create_render_buffer(): unable to create frame buffer object (".toList ").".toList ?_
  intro o hf
  have hf1 : o.fail = true := hf
  by_cases hb : o.bad = true <;>
    simp only [create_frame_buffer, hf1, hb, id, if_true, if_false, Bool.false_eq_true]

theorem create_timer_query_log (dev : render_device) :
    reports_bad_only (id : render_device_resource → render_device_resource) (some .error)
        (fun o => (create_timer_query dev o).log) := by
  refine reports_of_one_head _ _ _
    "render_device::create_timer_query(): unable to create timer query object (".toList ").".toList ?_
  intro o hf
  have hf1 : o.fail = true := hf
  by_cases hb : o.bad = true <;>
    simp only [create_timer_query, hf1, hb, id, if_true, if_false, Bool.false_eq_true]

/-- C18, counterexample: a sampler state whose creation failed without being
bad is discarded with no log entry at all. -/
theorem create_sampler_state_silent :
    (⟨1, true, false, "incomplete".toList⟩ : sampler_state).fail = true
    ∧ (create_sampler_state render_device.initial
        ⟨1, true, false, "incomplete".toList⟩).value = none
    ∧ (create_sampler_state render_device.initial
        ⟨1, true, false, "incomplete".toList⟩).log = [] := by
  decide

/-- C18, as amended: the factories for buffers, vertex arrays, textures (1D,
2D, 3D, texture buffer), shaders and programs write, for a failed creation of
either kind, one entry on `glerr` that contains the state string of the
object, at level error except for shaders and programs, whose entries carry no
level; the text for the bad case differs from the text for the other case.
The factories for sampler states, render buffers, frame buffers and timer
queries write such an entry for the bad case only and nothing for a creation
that failed without being bad. -/
theorem failed_creation_log (dev : render_device)
    (shader_stage_string : shader_stage → std_string) (in_stage : shader_stage)
    (in_source : std_string) (in_macros : shader_macro_array)
    (in_inc_paths : shader_include_path_list) (in_source_name : std_string) :
    (reports_failure buffer.torender_device_resource (some .error)
        (fun o => (create_buffer dev o).log)
      ∧ distinct_failure_texts buffer.torender_device_resource
        (fun o => (create_buffer dev o).log))
    ∧ (reports_failure (id : render_device_resource → render_device_resource) (some .error)
        (fun o => (create_vertex_array dev o).log)
      ∧ distinct_failure_texts (id : render_device_resource → render_device_resource)
        (fun o => (create_vertex_array dev o).log))
    ∧ (reports_failure (id : render_device_resource → render_device_resource) (some .error)
        (fun o => (create_texture_1d dev o).log)
      ∧ distinct_failure_texts (id : render_device_resource → render_device_resource)
        (fun o => (create_texture_1d dev o).log))
    ∧ (reports_failure (id : render_device_resource → render_device_resource) (some .error)
        (fun o => (create_texture_2d dev o).log)
      ∧ distinct_failure_texts (id : render_device_resource → render_device_resource)
        (fun o => (create_texture_2d dev o).log))
    ∧ (reports_failure (id : render_device_resource → render_device_resource) (some .error)
        (fun o => (create_texture_3d dev o).log)
      ∧ distinct_failure_texts (id : render_device_resource → render_device_resource)
        (fun o => (create_texture_3d dev o).log))
    ∧ (reports_failure (id : render_device_resource → render_device_resource) (some .error)
        (fun o => (create_texture_buffer dev o).log)
      ∧ distinct_failure_texts (id : render_device_resource → render_device_resource)
        (fun o => (create_texture_buffer dev o).log))
    ∧ (reports_failure shader.torender_device_resource none
        (fun o => (create_shader shader_stage_string (fun _ _ _ _ _ => o) dev in_stage
          in_source in_macros in_inc_paths in_source_name).log)
      ∧ distinct_failure_texts shader.torender_device_resource
        (fun o => (create_shader shader_stage_string (fun _ _ _ _ _ => o) dev in_stage
          in_source in_macros in_inc_paths in_source_name).log))
    ∧ (reports_failure program.torender_device_resource none
        (fun o => (create_program dev o).log)
      ∧ distinct_failure_texts program.torender_device_resource
        (fun o => (create_program dev o).log))
    ∧ reports_bad_only (id : render_device_resource → render_device_resource) (some .error)
        (fun o => (create_sampler_state dev o).log)
    ∧ reports_bad_only (id : render_device_resource → render_device_resource) (some .error)
        (fun o => (create_render_buffer dev o).log)
    ∧ reports_bad_only (id : render_device_resource → render_device_resource) (some .error)
        (fun o => (create_frame_buffer dev o).log)
    ∧ reports_bad_only (id : render_device_resource → render_device_resource) (some .error)
        (fun o => (create_timer_query dev o).log) :=
  ⟨create_buffer_log dev, create_vertex_array_log dev, create_texture_1d_log dev,
   create_texture_2d_log dev, create_texture_3d_log dev, create_texture_buffer_log dev,
   create_shader_log shader_stage_string dev in_stage in_source in_macros in_inc_paths
     in_source_name,
   create_program_log dev, create_sampler_state_log dev, create_render_buffer_log dev,
   create_frame_buffer_log dev, create_timer_query_log dev⟩

theorem failed_creation_log_witness :
    ∃ e, (create_texture_2d render_device.initial
          ⟨1, true, false, "GL_OUT_OF_MEMORY".toList⟩).log = [e]
      ∧ e.stream = .glerr ∧ e.level = some .error
      ∧ "GL_OUT_OF_MEMORY".toList <:+: e.text :=
  (failed_creation_log render_device.initial (fun _ => []) 0 [] ⟨[]⟩ [] []).2.2.2.1.1
    ⟨1, true, false, "GL_OUT_OF_MEMORY".toList⟩ rfl

/-! ## Factories and the registry -/

theorem erase_insert_list (p : Nat) (l : List Nat) (h : p ∉ l) :
    (std_set.insert_list p l).erase p = l := by
  induction l with
  | nil => simp [std_set.insert_list]
  | cons y ys ih =>
    have hne : p ≠ y := fun e => h (e ▸ List.mem_cons_self _ _)
    have hys : p ∉ ys := fun e => h (List.mem_cons_of_mem _ e)
    unfold std_set.insert_list
    by_cases h1 : p < y
    · simp [h1]
    · by_cases h2 : y < p
      · have hyp : ¬ (y == p) = true := by simpa using fun e : y = p => hne e.symm
        simp only [h1, h2, if_true, if_false]
        rw [List.erase_cons_tail hyp, ih hys]
      · exact absurd (le_antisymm (not_lt.mp h2) (not_lt.mp h1)) hne

theorem release_register_cancel (dev : render_device) (p : Nat)
    (hwf : dev._registered_resources.wf) (h : p ∉ dev._registered_resources.elems) :
    release_resource (register_resource dev p) p = dev := by
  have hwf1 := register_resource_wf dev p hwf
  have helems := release_resource_elems (register_resource dev p) p hwf1
  have hother := release_resource_other_members (register_resource dev p) p
  have he : (release_resource (register_resource dev p) p)._registered_resources.elems
      = dev._registered_resources.elems := by
    rw [helems]
    exact erase_insert_list p _ h
  cases hd : release_resource (register_resource dev p) p with
  | mk reg defs paths =>
    rw [hd] at he hother
    cases dev with
    | mk reg0 defs0 paths0 =>
      cases reg with
      | mk elems =>
        cases reg0 with
        | mk elems0 =>
          simp only [register_resource] at hother
          simp only at he
          obtain ⟨h1, h2⟩ := hother
          rw [he, h1, h2]

theorem release_unregistered (dev : render_device) (p : Nat)
    (h : p ∉ dev._registered_resources.elems) : release_resource dev p = dev := by
  unfold release_resource std_set.find
  rw [std_set.find_list_of_not_mem p _ h]

theorem unchecked_factory_device (dev : render_device) (call : factory_call)
    (h : call.uses_create_buffer = false) : (call.run dev).device = dev := by
  cases call with
  | create_buffer b => simp [factory_call.uses_create_buffer] at h
  | create_texture_buffer_sized b t => simp [factory_call.uses_create_buffer] at h
  | create_shader ss ctor st src m ip nm =>
    simp only [factory_call.run, create_shader]
    split_ifs <;> rfl
  | create_program o =>
    simp only [factory_call.run, create_program]
    split_ifs <;> rfl
  | create_vertex_array o => simp only [factory_call.run, create_vertex_array]; split_ifs <;> rfl
  | create_texture_1d o => simp only [factory_call.run, create_texture_1d]; split_ifs <;> rfl
  | create_texture_2d o => simp only [factory_call.run, create_texture_2d]; split_ifs <;> rfl
  | create_texture_3d o => simp only [factory_call.run, create_texture_3d]; split_ifs <;> rfl
  | create_texture_buffer o =>
    simp only [factory_call.run, create_texture_buffer]; split_ifs <;> rfl
  | create_sampler_state o =>
    simp only [factory_call.run, create_sampler_state]; split_ifs <;> rfl
  | create_render_buffer o =>
    simp only [factory_call.run, create_render_buffer]; split_ifs <;> rfl
  | create_frame_buffer o => simp only [factory_call.run, create_frame_buffer]; split_ifs <;> rfl
  | create_depth_stencil_state o => rfl
  | create_rasterizer_state o => rfl
  | create_blend_state o => rfl
  | create_timer_query o => simp only [factory_call.run, create_timer_query]; split_ifs <;> rfl

theorem create_texture_buffer_device (dev : render_device) (new_tex : texture_buffer) :
    (create_texture_buffer dev new_tex).device = dev := by
  unfold create_texture_buffer
  split_ifs <;> rfl

theorem create_texture_buffer_sized_outcome (dev : render_device) (new_buffer : buffer)
    (new_tex : texture_buffer) :
    (create_texture_buffer_sized dev new_buffer new_tex).value
        = (if new_buffer.fail = true then none
           else if new_tex.fail = true then none else some new_tex)
    ∧ (create_texture_buffer_sized dev new_buffer new_tex).device
        = (if new_buffer.fail = true then release_resource dev new_buffer.address
           else if new_tex.fail = true
             then release_resource (register_resource dev new_buffer.address) new_buffer.address
             else register_resource dev new_buffer.address) := by
  unfold create_texture_buffer_sized
  simp only [create_buffer_value, create_buffer_device, create_texture_buffer_value,
    create_texture_buffer_device]
  by_cases hb : new_buffer.fail = true
  · simp [hb]
  · by_cases ht : new_tex.fail = true
    · simp [hb, ht]
    · simp [hb, ht]

/-- C20, counterexample: the `create_texture_buffer` overload that allocates
its data buffer leaves that buffer in the registry after a successful call. -/
theorem create_texture_buffer_sized_registers :
    ((factory_call.create_texture_buffer_sized ⟨⟨7, false, false, []⟩, ⟨4, 2, 64⟩⟩
        ⟨8, false, false, []⟩).run render_device.initial).value = some ⟨8, false, false, []⟩
    ∧ ((factory_call.create_texture_buffer_sized ⟨⟨7, false, false, []⟩, ⟨4, 2, 64⟩⟩
        ⟨8, false, false, []⟩).run render_device.initial).device._registered_resources.elems
        = [7]
    ∧ render_device.initial._registered_resources.elems = [] := by
  decide

/-- C20, as amended: every factory that does not go through `create_buffer`
(vertex array, shader, program, texture 1D, 2D, 3D, texture buffer from a
descriptor, sampler, depth-stencil, rasterizer and blend state, render buffer,
frame buffer, timer query) leaves the device as it was, whether it succeeds or
fails. The `create_texture_buffer` overload that allocates its data buffer
registers that buffer: with the buffer built at an unregistered address, after
a successful call the registry is the old one with the address of the buffer
inserted, and after a failed call the device is as it was. -/
theorem factory_registry_frame (dev : render_device) :
    (∀ call : factory_call, call.uses_create_buffer = false →
        (call.run dev).device = dev
        ∧ (call.run dev).device._registered_resources = dev._registered_resources)
    ∧ (∀ (new_buffer : buffer) (new_tex : texture_buffer),
        dev._registered_resources.wf →
        new_buffer.address ∉ dev._registered_resources.elems →
        ((create_texture_buffer_sized dev new_buffer new_tex).value ≠ none →
          (create_texture_buffer_sized dev new_buffer new_tex).device
              = register_resource dev new_buffer.address
          ∧ ∀ p, p ∈ (create_texture_buffer_sized dev new_buffer
                  new_tex).device._registered_resources.elems
              ↔ p = new_buffer.address ∨ p ∈ dev._registered_resources.elems)
        ∧ ((create_texture_buffer_sized dev new_buffer new_tex).value = none →
          (create_texture_buffer_sized dev new_buffer new_tex).device = dev)) := by
  refine ⟨fun call h => ?_, fun new_buffer new_tex hwf hfresh => ?_⟩
  · have hd := unchecked_factory_device dev call h
    exact ⟨hd, by rw [hd]⟩
  · obtain ⟨hv, hd⟩ := create_texture_buffer_sized_outcome dev new_buffer new_tex
    rw [hv, hd]
    by_cases hb : new_buffer.fail = true
    · simp only [hb, if_true]
      exact ⟨fun h => absurd rfl h, fun _ => release_unregistered dev _ hfresh⟩
    · have hb0 : new_buffer.fail = false := by simpa using hb
      by_cases ht : new_tex.fail = true
      · simp only [hb0, ht, Bool.false_eq_true, if_false, if_true]
        exact ⟨fun h => absurd rfl h, fun _ => release_register_cancel dev _ hwf hfresh⟩
      · have ht0 : new_tex.fail = false := by simpa using ht
        simp only [hb0, ht0, Bool.false_eq_true, if_false]
        exact ⟨fun _ => ⟨trivial, fun p => mem_register_resource dev _ p⟩,
          fun hn => absurd hn (by simp)⟩

theorem factory_registry_frame_witness :
    ((factory_call.create_texture_2d ⟨8, false, false, []⟩).run
        ⟨⟨[3, 9]⟩, std_map.empty, std_set.empty⟩).device
      = ⟨⟨[3, 9]⟩, std_map.empty, std_set.empty⟩
    ∧ (create_texture_buffer_sized ⟨⟨[3, 9]⟩, std_map.empty, std_set.empty⟩
        ⟨⟨7, false, false, []⟩, ⟨4, 2, 64⟩⟩ ⟨8, true, false, []⟩).device
      = ⟨⟨[3, 9]⟩, std_map.empty, std_set.empty⟩ :=
  ⟨((factory_registry_frame ⟨⟨[3, 9]⟩, std_map.empty, std_set.empty⟩).1
      (factory_call.create_texture_2d ⟨8, false, false, []⟩) (by decide)).1,
   ((factory_registry_frame ⟨⟨[3, 9]⟩, std_map.empty, std_set.empty⟩).2
      ⟨⟨7, false, false, []⟩, ⟨4, 2, 64⟩⟩ ⟨8, true, false, []⟩ (by decide) (by decide)).2
      (by decide)⟩

/-! ## Depth-stencil descriptors -/

theorem front_back_desc_ignores_back (in_depth_test in_depth_mask : Bool)
    (in_depth_func : compare_func) (in_stencil_test : Bool)
    (in_stencil_rmask in_stencil_wmask : Nat)
    (in_stencil_front_ops in_stencil_back_ops other_back_ops : stencil_ops) :
    (create_depth_stencil_state_front_back_desc in_depth_test in_depth_mask in_depth_func
        in_stencil_test in_stencil_rmask in_stencil_wmask in_stencil_front_ops
        in_stencil_back_ops)._stencil_back_ops = in_stencil_front_ops
    ∧ create_depth_stencil_state_front_back_desc in_depth_test in_depth_mask in_depth_func
        in_stencil_test in_stencil_rmask in_stencil_wmask in_stencil_front_ops
        in_stencil_back_ops
      = create_depth_stencil_state_front_back_desc in_depth_test in_depth_mask in_depth_func
        in_stencil_test in_stencil_rmask in_stencil_wmask in_stencil_front_ops
        other_back_ops :=
  ⟨rfl, rfl⟩

/-- C21, the code at a failing input: called with front operations
`(1, 2, 3, 4)` and back operations `(5, 6, 7, 8)`, the overload builds a
descriptor whose back-face operations are the front ones, not the ones given;
a second call that differs only in the back operations builds the same
descriptor and, through the same constructor, returns the same object. -/
theorem create_depth_stencil_state_drops_back_ops :
    (create_depth_stencil_state_front_back_desc true true 1 true 255 255
        ⟨1, 2, 3, 4⟩ ⟨5, 6, 7, 8⟩)._stencil_front_ops = ⟨1, 2, 3, 4⟩
    ∧ (create_depth_stencil_state_front_back_desc true true 1 true 255 255
        ⟨1, 2, 3, 4⟩ ⟨5, 6, 7, 8⟩)._stencil_back_ops = ⟨1, 2, 3, 4⟩
    ∧ (create_depth_stencil_state_front_back_desc true true 1 true 255 255
        ⟨1, 2, 3, 4⟩ ⟨5, 6, 7, 8⟩)._stencil_back_ops ≠ ⟨5, 6, 7, 8⟩
    ∧ create_depth_stencil_state_front_back_desc true true 1 true 255 255
        ⟨1, 2, 3, 4⟩ ⟨5, 6, 7, 8⟩
      = create_depth_stencil_state_front_back_desc true true 1 true 255 255
        ⟨1, 2, 3, 4⟩ ⟨8, 7, 6, 5⟩
    ∧ (create_depth_stencil_state_front_back
        (fun d => ⟨d._stencil_back_ops._stencil_func, false, false, []⟩)
        render_device.initial true true 1 true 255 255 ⟨1, 2, 3, 4⟩ ⟨5, 6, 7, 8⟩).value
      = (create_depth_stencil_state_front_back
        (fun d => ⟨d._stencil_back_ops._stencil_func, false, false, []⟩)
        render_device.initial true true 1 true 255 255 ⟨1, 2, 3, 4⟩ ⟨8, 7, 6, 5⟩).value := by
  decide

/-! ## A failed buffer creation -/

/-- C22: when the constructed buffer reports `fail()`, `create_buffer` returns
an empty pointer and hands the discarded object to `release_resource`; the
object, just built, sits at an address that is not registered, so nothing is
removed and the device, registry included, is as before. This holds in every
state reached from an empty registry by creations and releases whose
allocations never reuse the address of a live resource. -/
theorem create_buffer_failure (dev : render_device) (new_buffer : buffer)
    (hfail : new_buffer.fail = true) :
    (create_buffer dev new_buffer).value = none
    ∧ (create_buffer dev new_buffer).device = release_resource dev new_buffer.address
    ∧ (new_buffer.address ∉ dev._registered_resources.elems →
        dev._registered_resources.find new_buffer.address = none
        ∧ (create_buffer dev new_buffer).device = dev
        ∧ (create_buffer dev new_buffer).device._registered_resources
            = dev._registered_resources)
    ∧ (∀ (dev0 : render_device) (calls : List device_call),
        dev0._registered_resources = std_set.empty →
        allocator_fresh (calls ++ [device_call.create_buffer new_buffer]) →
        dev = run_calls dev0 calls →
        new_buffer.address ∉ dev._registered_resources.elems
        ∧ (run_calls dev0 (calls ++ [device_call.create_buffer new_buffer]))._registered_resources
            = (run_calls dev0 calls)._registered_resources) := by
  have hv : (create_buffer dev new_buffer).value = none := by
    simp [create_buffer_value, hfail]
  have hd : (create_buffer dev new_buffer).device = release_resource dev new_buffer.address := by
    simp [create_buffer_device, hfail]
  refine ⟨hv, hd, fun hnot => ?_, fun dev0 calls h0 hfresh hdev => ?_⟩
  · have hsame : release_resource dev new_buffer.address = dev :=
      release_unregistered dev _ hnot
    refine ⟨std_set.find_list_of_not_mem _ _ hnot, ?_, ?_⟩
    · rw [hd, hsame]
    · rw [hd, hsame]
  · have hlast : fresh_at (calls ++ [device_call.create_buffer new_buffer]) calls.length
        = true := hfresh calls.length (by simp)
    rw [fresh_at_snoc] at hlast
    have hnl : live_after calls new_buffer.address = false := by simpa using hlast
    have hinv := (registry_invariant dev0 h0 calls
      (allocator_fresh_append_left calls _ hfresh)).2 new_buffer.address
    have hnot : new_buffer.address ∉ dev._registered_resources.elems := by
      rw [hdev]
      intro hm
      have := hinv.mp hm
      rw [hnl] at this
      exact Bool.false_ne_true this
    refine ⟨hnot, ?_⟩
    rw [run_calls_snoc]
    simp only [device_call.run]
    rw [← hdev, hd, release_unregistered dev _ hnot]

theorem create_buffer_failure_witness :
    (create_buffer ⟨⟨[3, 9]⟩, std_map.empty, std_set.empty⟩
        ⟨⟨7, true, false, "GL_OUT_OF_MEMORY".toList⟩, ⟨1, 2, 64⟩⟩).value = none
    ∧ (create_buffer ⟨⟨[3, 9]⟩, std_map.empty, std_set.empty⟩
        ⟨⟨7, true, false, "GL_OUT_OF_MEMORY".toList⟩, ⟨1, 2, 64⟩⟩).device
      = ⟨⟨[3, 9]⟩, std_map.empty, std_set.empty⟩ :=
  ⟨(create_buffer_failure ⟨⟨[3, 9]⟩, std_map.empty, std_set.empty⟩
      ⟨⟨7, true, false, "GL_OUT_OF_MEMORY".toList⟩, ⟨1, 2, 64⟩⟩ rfl).1,
   ((create_buffer_failure ⟨⟨[3, 9]⟩, std_map.empty, std_set.empty⟩
      ⟨⟨7, true, false, "GL_OUT_OF_MEMORY".toList⟩, ⟨1, 2, 64⟩⟩ rfl).2.2.1
      (by decide)).2.1⟩

/-! ## Assignment into an ordered map -/

section std_map_facts

variable {κ β : Type} [LinearOrder κ]

theorem std_map.keys_assign_list (k : κ) (v : β) (l : List (κ × β)) (x : κ) :
    x ∈ (std_map.assign_list k v l).map Prod.fst ↔ x = k ∨ x ∈ l.map Prod.fst := by
  induction l with
  | nil => simp [std_map.assign_list]
  | cons e rest ih =>
    obtain ⟨k0, v0⟩ := e
    unfold std_map.assign_list
    by_cases h1 : k < k0
    · simp [h1]
    · by_cases h2 : k0 < k
      · simp only [h1, h2, if_true, if_false, List.map_cons, List.mem_cons, ih]
        tauto
      · have hk : k = k0 := le_antisymm (not_lt.mp h2) (not_lt.mp h1)
        simp [h1, h2, hk]

theorem std_map.assign_list_pairwise (k : κ) (v : β) (l : List (κ × β))
    (h : (l.map Prod.fst).Pairwise (fun a b => a < b)) :
    ((std_map.assign_list k v l).map Prod.fst).Pairwise (fun a b => a < b) := by
  induction l with
  | nil => simp [std_map.assign_list]
  | cons e rest ih =>
    obtain ⟨k0, v0⟩ := e
    simp only [List.map_cons, List.pairwise_cons] at h
    unfold std_map.assign_list
    by_cases h1 : k < k0
    · simp only [h1, if_true, List.map_cons, List.pairwise_cons]
      refine ⟨?_, h⟩
      intro x hx
      rcases List.mem_cons.mp hx with rfl | hx
      · exact h1
      · exact lt_trans h1 (h.1 x hx)
    · by_cases h2 : k0 < k
      · simp only [h1, h2, if_true, if_false, List.map_cons, List.pairwise_cons]
        refine ⟨?_, ih h.2⟩
        intro x hx
        rcases (std_map.keys_assign_list k v rest x).mp hx with rfl | hx
        · exact h2
        · exact h.1 x hx
      · simp only [h1, h2, if_false, List.map_cons, List.pairwise_cons]
        exact h

theorem std_map.mem_assign_list (k : κ) (v : β) (l : List (κ × β))
    (h : (l.map Prod.fst).Pairwise (fun a b => a < b)) (k1 : κ) (v1 : β) :
    (k1, v1) ∈ std_map.assign_list k v l
      ↔ (k1 = k ∧ v1 = v) ∨ (k1 ≠ k ∧ (k1, v1) ∈ l) := by
  induction l with
  | nil => simp [std_map.assign_list]
  | cons e rest ih =>
    obtain ⟨k0, v0⟩ := e
    simp only [List.map_cons, List.pairwise_cons] at h
    have hrest : ∀ v2, (k1, v2) ∈ rest → k0 < k1 := fun v2 hm =>
      h.1 k1 (List.mem_map.mpr ⟨(k1, v2), hm, rfl⟩)
    unfold std_map.assign_list
    by_cases h1 : k < k0
    · simp only [h1, if_true, List.mem_cons, Prod.mk.injEq]
      constructor
      · rintro (⟨rfl, rfl⟩ | ⟨rfl, rfl⟩ | hm)
        · exact Or.inl ⟨rfl, rfl⟩
        · exact Or.inr ⟨ne_of_gt h1, Or.inl ⟨rfl, rfl⟩⟩
        · exact Or.inr ⟨ne_of_gt (lt_trans h1 (hrest _ hm)), Or.inr hm⟩
      · rintro (⟨rfl, rfl⟩ | ⟨_, hm⟩)
        · exact Or.inl ⟨rfl, rfl⟩
        · exact Or.inr hm
    · by_cases h2 : k0 < k
      · simp only [h1, h2, if_true, if_false, List.mem_cons, Prod.mk.injEq, ih h.2]
        constructor
        · rintro (⟨rfl, rfl⟩ | ⟨rfl, rfl⟩ | ⟨hne, hm⟩)
          · exact Or.inr ⟨ne_of_lt h2, Or.inl ⟨rfl, rfl⟩⟩
          · exact Or.inl ⟨rfl, rfl⟩
          · exact Or.inr ⟨hne, Or.inr hm⟩
        · rintro (⟨rfl, rfl⟩ | ⟨hne, ⟨rfl, rfl⟩ | hm⟩)
          · exact Or.inr (Or.inl ⟨rfl, rfl⟩)
          · exact Or.inl ⟨rfl, rfl⟩
          · exact Or.inr (Or.inr ⟨hne, hm⟩)
      · have hk : k = k0 := le_antisymm (not_lt.mp h2) (not_lt.mp h1)
        subst hk
        simp only [h1, if_false, List.mem_cons, Prod.mk.injEq]
        constructor
        · rintro (⟨rfl, rfl⟩ | hm)
          · exact Or.inl ⟨rfl, rfl⟩
          · exact Or.inr ⟨ne_of_gt (hrest _ hm), Or.inr hm⟩
        · rintro (⟨rfl, rfl⟩ | ⟨hne, ⟨rfl, _⟩ | hm⟩)
          · exact Or.inl ⟨rfl, rfl⟩
          · exact absurd rfl hne
          · exact Or.inr hm

end std_map_facts

/-! ## Default macro defines -/

theorem add_macro_define_eq (dev : render_device) (in_name in_value : std_string) :
    add_macro_define dev in_name in_value
      = add_macro_define_m dev ( shader_macro.mk in_name in_value) :=
  rfl

theorem define_call_run_eq (dev : render_device) (c : define_call) :
    c.run dev = c.definitions.foldl add_macro_define_m dev := by
  cases c <;> rfl

theorem run_defines_eq (dev : render_device) (calls : List define_call) :
    run_defines dev calls = (all_definitions calls).foldl add_macro_define_m dev := by
  induction calls generalizing dev with
  | nil => rfl
  | cons c rest ih =>
    simp only [run_defines, all_definitions, List.foldl_cons, List.flatMap_cons,
      List.foldl_append] at ih ⊢
    rw [define_call_run_eq]
    exact ih _

theorem most_recent_snoc (defs : List shader_macro) ( d : shader_macro) (name : std_string) :
    most_recent (defs ++ [d]) name
      = if d._name = name then some d else most_recent defs name := by
  unfold most_recent
  rw [List.filter_append]
  by_cases h : d._name = name
  · simp [List.filter_cons, h]
  · simp [List.filter_cons, h]

theorem most_recent_name (defs : List shader_macro) (name : std_string) ( d : shader_macro)
    (h : most_recent defs name = some d) : d._name = name ∧ d ∈ defs := by
  have hm := List.mem_of_getLast?_eq_some h
  rw [List.mem_filter] at hm
  exact ⟨by simpa using hm.2, hm.1⟩

theorem most_recent_isSome (defs : List shader_macro) (name : std_string) :
    (∃ d, most_recent defs name = some d) ↔ ∃ d, d ∈ defs ∧ d._name = name := by
  constructor
  · rintro ⟨d, h⟩
    exact ⟨d, (most_recent_name defs name d h).2, (most_recent_name defs name d h).1⟩
  · rintro ⟨d, hd, hn⟩
    have hne : defs.filter (fun x => x._name == name) ≠ [] := by
      intro he
      have : d ∈ defs.filter (fun x => x._name == name) :=
        List.mem_filter.mpr ⟨hd, by simp [hn]⟩
      rw [he] at this
      exact List.not_mem_nil _ this
    cases hg : (defs.filter (fun x => x._name == name)).getLast? with
    | none => exact absurd (List.getLast?_eq_none_iff.mp hg) hne
    | some x => exact ⟨x, hg⟩

/-- After a list of definitions the map is well formed and holds, under each
name, exactly the most recent definition of that name. -/
theorem default_defines_invariant (defs : List shader_macro) :
    (defs.foldl add_macro_define_m render_device.initial)._default_macro_defines.wf
    ∧ ∀ (k : std_string) ( d : shader_macro),
        (k, d) ∈ (defs.foldl add_macro_define_m
            render_device.initial)._default_macro_defines.entries
          ↔ most_recent defs k = some d := by
  induction defs using List.reverseRecOn with
  | nil =>
    refine ⟨?_, fun k d => ?_⟩
    · simp [render_device.initial, std_map.empty, std_map.wf]
    · simp [render_device.initial, std_map.empty, most_recent]
  | append_singleton init x ih =>
    obtain ⟨hwf, hmem⟩ := ih
    rw [List.foldl_append]
    simp only [List.foldl_cons, List.foldl_nil, add_macro_define_m, std_map.assign]
    refine ⟨std_map.assign_list_pairwise _ _ _ hwf, fun k d => ?_⟩
    rw [std_map.mem_assign_list _ _ _ hwf, most_recent_snoc, hmem]
    by_cases hk : x._name = k
    · rw [if_pos hk]
      constructor
      · rintro (⟨_, hd⟩ | ⟨hne, _⟩)
        · rw [hd]
        · exact absurd hk.symm hne
      · intro h
        exact Or.inl ⟨hk.symm, (Option.some.inj h).symm⟩
    · rw [if_neg hk]
      constructor
      · rintro (⟨hkx, _⟩ | ⟨_, h⟩)
        · exact absurd hkx.symm hk
        · exact h
      · intro h
        exact Or.inr ⟨fun e => hk e.symm, h⟩

theorem create_shader_global_part_eq (dev : render_device) (in_macros : shader_macro_array) :
    create_shader_global_part dev in_macros
      = dev._default_macro_defines.entries.map (fun mb => mb.2) := by
  unfold create_shader_global_part create_shader_macro_array
  rw [foldl_add_macros, List.drop_left]

theorem eq_of_ascending_names (l1 l2 : List shader_macro)
    (h1 : (l1.map (fun d => d._name)).Pairwise (fun a b => a < b))
    (h2 : (l2.map (fun d => d._name)).Pairwise (fun a b => a < b))
    (hmem : ∀ d, d ∈ l1 ↔ d ∈ l2) : l1 = l2 := by
  have s1 : l1.Pairwise (fun a b => a._name < b._name) := List.pairwise_map.mp h1
  have s2 : l2.Pairwise (fun a b => a._name < b._name) := List.pairwise_map.mp h2
  have hne : ∀ {a b : shader_macro}, a._name < b._name → a ≠ b := by
    intro a b hab e
    rw [e] at hab
    exact lt_irrefl _ hab
  have n1 : l1.Nodup := List.Pairwise.imp hne s1
  have n2 : l2.Nodup := List.Pairwise.imp hne s2
  have hp : l1.Perm l2 := (List.perm_ext_iff_of_nodup n1 n2).mpr hmem
  haveI : IsAntisymm shader_macro (fun a b => a._name < b._name) :=
    ⟨fun a b hab hba => absurd hba (lt_asymm hab)⟩
  exact List.eq_of_perm_of_sorted hp s1 s2

theorem global_part_facts (calls : List define_call) (in_macros : shader_macro_array) :
    ((create_shader_global_part (run_defines render_device.initial calls) in_macros).map
        (fun d => d._name)).Pairwise (fun a b => a < b)
    ∧ ∀ d, d ∈ create_shader_global_part (run_defines render_device.initial calls) in_macros
        ↔ most_recent (all_definitions calls) d._name = some d := by
  obtain ⟨hwf, hmem⟩ := default_defines_invariant (all_definitions calls)
  rw [create_shader_global_part_eq, run_defines_eq]
  have hkey : ∀ e, e ∈ ((all_definitions calls).foldl add_macro_define_m
      render_device.initial)._default_macro_defines.entries → e.2._name = e.1 := by
    intro e he
    exact (most_recent_name _ _ _ ((hmem e.1 e.2).mp he)).1
  constructor
  · have hmap : (((all_definitions calls).foldl add_macro_define_m
        render_device.initial)._default_macro_defines.entries.map (fun mb => mb.2)).map
          (fun d => d._name)
        = ((all_definitions calls).foldl add_macro_define_m
            render_device.initial)._default_macro_defines.entries.map Prod.fst := by
      rw [List.map_map]
      exact List.map_congr_left (fun e he => hkey e he)
    rw [hmap]
    exact hwf
  · intro d
    rw [List.mem_map]
    constructor
    · rintro ⟨e, he, rfl⟩
      have h := (hmem e.1 e.2).mp he
      rw [hkey e he]
      exact h
    · intro h
      exact ⟨(d._name, d), (hmem d._name d).mpr h, rfl⟩

/-- C23: after any sequence of `add_macro_define` and `add_macro_defines` calls
on a new device, the part that `create_shader` appends after the macros of the
call has its names in strictly ascending order, so no name twice; it holds a
macro exactly when that macro is the most recent definition of its name, so
every defined name has one entry, with the latest value; and it is the same
for two sequences that agree on the most recent definition of every name,
whatever the order of their calls. -/
theorem default_defines_in_combined_list (calls : List define_call)
    (in_macros : shader_macro_array) :
    (create_shader_macro_array (run_defines render_device.initial calls) in_macros).macros
        = in_macros.macros
          ++ create_shader_global_part (run_defines render_device.initial calls) in_macros
    ∧ ((create_shader_global_part (run_defines render_device.initial calls) in_macros).map
        (fun d => d._name)).Pairwise (fun a b => a < b)
    ∧ ((create_shader_global_part (run_defines render_device.initial calls) in_macros).map
        (fun d => d._name)).Nodup
    ∧ (∀ d, d ∈ create_shader_global_part (run_defines render_device.initial calls) in_macros
        ↔ most_recent (all_definitions calls) d._name = some d)
    ∧ (∀ name, name ∈ (create_shader_global_part (run_defines render_device.initial calls)
          in_macros).map (fun d => d._name)
        ↔ ∃ d, d ∈ all_definitions calls ∧ d._name = name)
    ∧ (∀ other_calls : List define_call,
        (∀ name, most_recent (all_definitions other_calls) name
          = most_recent (all_definitions calls) name) →
        create_shader_global_part (run_defines render_device.initial other_calls) in_macros
          = create_shader_global_part (run_defines render_device.initial calls) in_macros) := by
  obtain ⟨hsorted, hmem⟩ := global_part_facts calls in_macros
  refine ⟨?_, hsorted, std_set.pairwise_lt_nodup _ hsorted, hmem, fun name => ?_,
    fun other_calls hsame => ?_⟩
  · unfold create_shader_global_part
    have h := foldl_add_macros
      (run_defines render_device.initial calls)._default_macro_defines.entries in_macros
    unfold create_shader_macro_array
    rw [h, List.drop_left]
  · rw [List.mem_map]
    constructor
    · rintro ⟨d, hd, rfl⟩
      exact (most_recent_isSome (all_definitions calls) d._name).mp ⟨d, (hmem d).mp hd⟩
    · intro hex
      obtain ⟨d, hd⟩ := (most_recent_isSome (all_definitions calls) name).mpr hex
      have hn := (most_recent_name _ _ _ hd).1
      refine ⟨d, (hmem d).mpr ?_, hn⟩
      rw [hn]
      exact hd
  · obtain ⟨hsorted2, hmem2⟩ := global_part_facts other_calls in_macros
    apply eq_of_ascending_names _ _ hsorted2 hsorted
    intro d
    rw [hmem2 d, hmem d, hsame]

theorem default_defines_in_combined_list_witness :
    most_recent (all_definitions
        [.add_macro_define "B".toList "1".toList,
         .add_macro_defines ⟨[ shader_macro.mk "C".toList "x".toList,
           shader_macro.mk "A".toList "2".toList]⟩,
         .add_macro_define_m ( shader_macro.mk "B".toList "3".toList)]) "B".toList
      = some ( shader_macro.mk "B".toList "3".toList)
    ∧ shader_macro.mk "B".toList "3".toList
      ∈ create_shader_global_part (run_defines render_device.initial
        [.add_macro_define "B".toList "1".toList,
         .add_macro_defines ⟨[ shader_macro.mk "C".toList "x".toList,
           shader_macro.mk "A".toList "2".toList]⟩,
         .add_macro_define_m ( shader_macro.mk "B".toList "3".toList)])
        ⟨[ shader_macro.mk "Z".toList "z".toList]⟩ :=
  ⟨by decide,
   ((default_defines_in_combined_list
      [.add_macro_define "B".toList "1".toList,
       .add_macro_defines ⟨[ shader_macro.mk "C".toList "x".toList,
         shader_macro.mk "A".toList "2".toList]⟩,
       .add_macro_define_m ( shader_macro.mk "B".toList "3".toList)]
      ⟨[ shader_macro.mk "Z".toList "z".toList]⟩).2.2.2.1
      ( shader_macro.mk "B".toList "3".toList)).mpr (by decide)⟩

end scm_gl
